import Mathlib

/-!
NDI PTZ Control (NDIPTZControl.cpp): embedding of the property-change handler

The plugin is a single actor whose private data is a `PluginInfo` record.  All of
its behaviour that matters here lives in `HandlePropertyChangeValue`, which talks to
the NDI library (finder and receiver objects) and to the host (the `ndi_name`
output property).

The embedding is state passing over a `World`:

* `PluginInfo` is the C struct, field for field (host plumbing pointers left out);
* the `ndi_name` output property of the host is one `String` field;
* every call made to the NDI library is appended to a log, so that orderings and
  open resources can be read back from the log;
* what the library answers (is a finder created, what each poll reports, is a
  receiver created, what the status poll returns) is not decided by the plugin;
  it is supplied by an `NDIEnv` record, one per handler invocation;
* pointers are `Option Nat`: `none` is the null pointer, `some h` an opaque handle;
* the `while (!no_sources)` loop carries a fuel argument; running out of fuel is
  reported as `Fault.outOfFuel`, never as a normal return;
* `World` holds the value of `mSelectedNDIName`; whether that `std::string` member
  is a live object at all is kept one layer up, in `PluginBlock`, where the handler
  is `HandlePropertyChangeValueOnBlock` and an assignment to the never-constructed
  member is a fault.  `HandlePropertyChangeValue` on a `World` is the handler as it
  runs once the member is a live string.
-/

namespace NDIPTZControl

/-! ## Machine integers -/

/-- The C cast `(int)x` for a 32-bit `int`: reduction into `[-2^31, 2^31)`.
It is the identity on values that already are 32-bit signed integers. -/
def toInt (x : Int) : Int := (x + 2147483648) % 4294967296 - 2147483648

/-- The conversion of an `int` to `uint32_t` that the usual arithmetic conversions
apply when an `int` is compared with a `uint32_t`: reduction modulo `2^32`. -/
def toUInt32 (x : Int) : Nat := (x % 4294967296).toNat

/-- Values representable in a 32-bit signed `int`. -/
def isInt32 (x : Int) : Prop := -2147483648 ≤ x ∧ x < 2147483648

instance (x : Int) : Decidable (isInt32 x) := by unfold isInt32; infer_instance

/-! ## NDI library interface, as used by the plugin -/

/-- The descriptor of a discovered source (`NDIlib_source_t`). -/
structure NDIlib_source_t where
  p_ndi_name : String
  p_url_address : String
  deriving DecidableEq, Repr

/-- The frame types `NDIlib_recv_capture_v3` can report (`NDIlib_frame_type_e`). -/
inductive NDIlib_frame_type_e where
  | frame_type_none
  | frame_type_video
  | frame_type_audio
  | frame_type_metadata
  | frame_type_error
  | frame_type_status_change
  deriving DecidableEq, Repr

/-- What `NDIlib_find_get_current_sources` hands back: the pointer to the source
array (`none` is `NULL`) and the count written through `&no_sources`. -/
structure PollResult where
  p_sources : Option (List NDIlib_source_t)
  no_sources : Nat
  deriving DecidableEq, Repr

/-- One call to the NDI library, with the arguments the plugin passed and, for the
two constructors, the pointer the library returned. -/
inductive NDICall where
  | lib_initialize_call
  | lib_destroy_call
  | find_create_v2 (result : Option Nat)
  | find_wait_for_sources (pNDI_find : Nat) (timeout_in_ms : Nat)
  | find_get_current_sources (pNDI_find : Nat)
  | find_destroy (pNDI_find : Nat)
  | recv_create_v3 (source_to_connect_to : NDIlib_source_t) (result : Option Nat)
  | recv_destroy (pNDI_recv : Option Nat)
  | recv_capture_v3 (pNDI_recv : Option Nat) (timeout_in_ms : Nat)
  | recv_ptz_is_supported (pNDI_recv : Option Nat)
  | recv_ptz_pan_tilt (pNDI_recv : Option Nat) (pan_speed tilt_speed : Rat)
  | recv_ptz_zoom (pNDI_recv : Option Nat) (zoom_speed : Rat)
  deriving DecidableEq, Repr

/-- The answers of the NDI library during one handler invocation. -/
structure NDIEnv where
  /-- whether `NDIlib_find_create_v2` returns a finder (otherwise `NULL`) -/
  find_create_v2 : Bool
  /-- what the `k`-th call (from 0) of `NDIlib_find_get_current_sources` reports -/
  current_sources : Nat → PollResult
  /-- whether `NDIlib_recv_create_v3` returns a receiver for this source -/
  recv_create_v3 : NDIlib_source_t → Bool
  /-- the frame type `NDIlib_recv_capture_v3` returns on this receiver pointer -/
  recv_capture_v3 : Option Nat → NDIlib_frame_type_e
  /-- the answer of `NDIlib_recv_ptz_is_supported` on this receiver pointer -/
  recv_ptz_is_supported : Option Nat → Bool

/-! ## Plugin data -/

/-- The `PluginInfo` struct.  Float amounts are kept as exact rationals: the handler
only stores and forwards them. -/
structure PluginInfo where
  mNDIIndex : Int
  mSelectedNDIName : String
  mHorizAmount : Rat
  mVertAmount : Rat
  mZoomAmount : Rat
  pNDI_recv : Option Nat
  deriving DecidableEq, Repr

/-- The members of the host's `Value` union the handler reads. -/
structure Value where
  ivalue : Int
  fvalue : Rat
  deriving DecidableEq, Repr

/-- Everything the handler can read or change. -/
structure World where
  /-- the actor's private data -/
  info : PluginInfo
  /-- the value of the output property `ndi_name` (`kOutText`) -/
  ndi_name : String
  /-- the next handle the library will give out -/
  nextHandle : Nat
  /-- the library calls made so far, oldest first -/
  calls : List NDICall
  deriving DecidableEq, Repr

/-- The ways a run of the handler can fail to return. -/
inductive Fault where
  /-- the discovery loop was still running when the fuel ran out -/
  | outOfFuel
  /-- `p_sources[i]` was read outside the array -/
  | outOfBoundsRead
  deriving DecidableEq, Repr

/-! ## Property index constants -/

def kNDIIndex : Nat := 1
def kVertAmnt : Nat := 2
def kHorizAmnt : Nat := 3
def kZoomAmnt : Nat := 4
def kTriggerGo : Nat := 5
def kOutText : Nat := 1

/-! ## CreateActor -/

/-- The bytes `IzzyMallocClear_` hands out, read as a `PluginInfo`: all zeroes.  No
constructor runs on them, so the `std::string` member `mSelectedNDIName` is not a
live object; its zero bytes are shown here as the empty text, and that no
constructor has run is recorded by `nameConstructed = false` in `CreateActorBlock`. -/
def clearedInfo : PluginInfo :=
  { mNDIIndex := 0, mSelectedNDIName := "", mHorizAmount := 0, mVertAmount := 0,
    mZoomAmount := 0, pNDI_recv := none }

/-- `CreateActor`: a cleared `PluginInfo`, `mNDIIndex = 0`, and one call of
`NDIlib_initialize` (whose result only decides a log message). -/
def CreateActor : World :=
  { info := { clearedInfo with mNDIIndex := 0 },
    ndi_name := "",
    nextHandle := 0,
    calls := [NDICall.lib_initialize_call] }

/-! ## HandlePropertyChangeValue -/

/-- The loop `while (!no_sources) { wait_for_sources(1000); p_sources = get_current_sources(&no_sources); }`.
`cur` holds `p_sources` and `no_sources`, `k` counts the polls made so far. -/
def discoveryLoop (env : NDIEnv) (pNDI_find : Nat) :
    Nat → Nat → PollResult → List NDICall → Option (PollResult × List NDICall)
  | 0, _, cur, calls => if cur.no_sources ≠ 0 then some (cur, calls) else none
  | fuel + 1, k, cur, calls =>
    if cur.no_sources ≠ 0 then some (cur, calls)
    else
      discoveryLoop env pNDI_find fuel (k + 1) (env.current_sources k)
        (calls ++ [NDICall.find_wait_for_sources pNDI_find 1000,
                   NDICall.find_get_current_sources pNDI_find])

/-- The read `p_sources[i]` with a signed index: defined only inside the array. -/
def readSource (p_sources : List NDIlib_source_t) (i : Int) : Option NDIlib_source_t :=
  if 0 ≤ i then p_sources.get? i.toNat else none

/-- The part of case `kNDIIndex` after the discovery loop: the `NULL` check, the
bound check, the name and output update, and the creation of the receiver.
`w2` is the state when the loop is left, `r` what the last poll reported. -/
def resolveAndConnect (env : NDIEnv) (w2 : World) (pNDI_find : Nat) (r : PollResult) :
    Except Fault World :=
  match r.p_sources with
  -- if (p_sources == NULL) break;
  | none => .ok w2
  | some p_sources =>
    -- if (info->mNDIIndex < no_sources) ... else break;
    if toUInt32 w2.info.mNDIIndex < r.no_sources then
      match readSource p_sources w2.info.mNDIIndex with
      | none => .error Fault.outOfBoundsRead
      | some src =>
        -- info->mSelectedNDIName = std::string(p_sources[info->mNDIIndex].p_ndi_name);
        let info2 : PluginInfo := { w2.info with mSelectedNDIName := src.p_ndi_name }
        -- SetOutputPropertyValue_(ip, info->mActorInfoPtr, kOutText, &kOutTextValue);
        let out := info2.mSelectedNDIName
        -- info->pNDI_recv = NDIlib_recv_create_v3(&NDI_recv_create_desc);
        if env.recv_create_v3 src = false then
          -- if (!info->pNDI_recv) break;
          .ok { info := { info2 with pNDI_recv := none },
                ndi_name := out,
                nextHandle := w2.nextHandle,
                calls := w2.calls ++ [NDICall.recv_create_v3 src none] }
        else
          -- NDIlib_find_destroy(pNDI_find);
          .ok { info := { info2 with pNDI_recv := some w2.nextHandle },
                ndi_name := out,
                nextHandle := w2.nextHandle + 1,
                calls := w2.calls ++ [NDICall.recv_create_v3 src (some w2.nextHandle),
                                      NDICall.find_destroy pNDI_find] }
    else .ok w2

/-- The case `kNDIIndex` of the handler. -/
def caseNDIIndex (env : NDIEnv) (fuel : Nat) (w : World) (inNewValue : Value) :
    Except Fault World :=
  -- info->mNDIIndex = (int)inNewValue->u.ivalue;
  let info1 : PluginInfo := { w.info with mNDIIndex := toInt inNewValue.ivalue }
  -- pNDI_find = NDIlib_find_create_v2(...); if (!pNDI_find) break;
  if env.find_create_v2 = false then
    .ok { w with info := info1, calls := w.calls ++ [NDICall.find_create_v2 none] }
  else
    let pNDI_find := w.nextHandle
    let calls1 := w.calls ++ [NDICall.find_create_v2 (some pNDI_find)]
    -- p_sources = NULL; no_sources = 0; while (!no_sources) ...
    match discoveryLoop env pNDI_find fuel 0 ⟨none, 0⟩ calls1 with
    | none => .error Fault.outOfFuel
    | some (r, calls2) =>
      resolveAndConnect env
        { w with info := info1, nextHandle := w.nextHandle + 1, calls := calls2 }
        pNDI_find r

/-- The case `kTriggerGo` of the handler. -/
def caseTriggerGo (env : NDIEnv) (w : World) : World :=
  let recv := w.info.pNDI_recv
  -- switch (NDIlib_recv_capture_v3(info->pNDI_recv, NULL, NULL, NULL, 1000))
  let calls1 := w.calls ++ [NDICall.recv_capture_v3 recv 1000]
  match env.recv_capture_v3 recv with
  | NDIlib_frame_type_e.frame_type_status_change =>
    -- if (NDIlib_recv_ptz_is_supported(info->pNDI_recv))
    let calls2 := calls1 ++ [NDICall.recv_ptz_is_supported recv]
    if env.recv_ptz_is_supported recv then
      { w with calls := calls2 ++
          [NDICall.recv_ptz_pan_tilt recv w.info.mHorizAmount w.info.mVertAmount,
           NDICall.recv_ptz_zoom recv w.info.mZoomAmount] }
    else { w with calls := calls2 }
  | _ => { w with calls := calls1 }

/-- `HandlePropertyChangeValue`: the switch on the one-based property index. -/
def HandlePropertyChangeValue (env : NDIEnv) (fuel : Nat) (w : World)
    (inPropertyIndex1 : Nat) (inNewValue : Value) : Except Fault World :=
  if inPropertyIndex1 = kNDIIndex then caseNDIIndex env fuel w inNewValue
  else if inPropertyIndex1 = kVertAmnt then
    .ok { w with info := { w.info with mVertAmount := inNewValue.fvalue } }
  else if inPropertyIndex1 = kHorizAmnt then
    .ok { w with info := { w.info with mHorizAmount := inNewValue.fvalue } }
  else if inPropertyIndex1 = kZoomAmnt then
    .ok { w with info := { w.info with mZoomAmount := inNewValue.fvalue } }
  else if inPropertyIndex1 = kTriggerGo then .ok (caseTriggerGo env w)
  else .ok w

/-! ## The lifetime of the `std::string` member -/

/-- The block behind `mActorDataPtr` with the lifetime of its one non-trivial
member made explicit.  `world.info.mSelectedNDIName` is the value of the string
only when `nameConstructed` holds; otherwise the member is the zero bytes
`IzzyMallocClear_` left, on which no `std::string` constructor has run. -/
structure PluginBlock where
  /-- the `PluginInfo` fields, the output and the call log -/
  world : World
  /-- whether `mSelectedNDIName` is a live `std::string` object -/
  nameConstructed : Bool
  deriving DecidableEq, Repr

/-- The ways a run of the handler on a `PluginBlock` can fail to return. -/
inductive BlockFault where
  /-- a fault of the handler that does not depend on the string member -/
  | handlerFault (f : Fault)
  /-- `info->mSelectedNDIName = ...` was executed on the never-constructed member -/
  | assignToUnconstructedString
  deriving DecidableEq, Repr

/-- `CreateActor` as a block: `info = (PluginInfo*) IzzyMallocClear_(...)` is a cast
of zeroed memory, and nothing in `CreateActor` constructs the string member. -/
def CreateActorBlock : PluginBlock := { world := CreateActor, nameConstructed := false }

/-- A result on `World` carried over to the block; the lifetime of the string
member is left as it is. -/
def liftToBlock (nameConstructed : Bool) : Except Fault World → Except BlockFault PluginBlock
  | .ok w => .ok { world := w, nameConstructed := nameConstructed }
  | .error f => .error (BlockFault.handlerFault f)

/-- The part of case `kNDIIndex` after the discovery loop, on a block: as
`resolveAndConnect`, with the assignment to `mSelectedNDIName` defined only on a
live string. -/
def resolveAndConnectOnBlock (env : NDIEnv) (b2 : PluginBlock) (pNDI_find : Nat)
    (r : PollResult) : Except BlockFault PluginBlock :=
  match r.p_sources with
  -- if (p_sources == NULL) break;
  | none => .ok b2
  | some p_sources =>
    -- if (info->mNDIIndex < no_sources) ... else break;
    if toUInt32 b2.world.info.mNDIIndex < r.no_sources then
      match readSource p_sources b2.world.info.mNDIIndex with
      | none => .error (BlockFault.handlerFault Fault.outOfBoundsRead)
      | some src =>
        -- info->mSelectedNDIName = std::string(p_sources[info->mNDIIndex].p_ndi_name);
        if b2.nameConstructed = false then .error BlockFault.assignToUnconstructedString
        else
          let info2 : PluginInfo := { b2.world.info with mSelectedNDIName := src.p_ndi_name }
          -- SetOutputPropertyValue_(ip, info->mActorInfoPtr, kOutText, &kOutTextValue);
          let out := info2.mSelectedNDIName
          -- info->pNDI_recv = NDIlib_recv_create_v3(&NDI_recv_create_desc);
          if env.recv_create_v3 src = false then
            -- if (!info->pNDI_recv) break;
            .ok { world := { info := { info2 with pNDI_recv := none },
                             ndi_name := out,
                             nextHandle := b2.world.nextHandle,
                             calls := b2.world.calls ++ [NDICall.recv_create_v3 src none] },
                  nameConstructed := b2.nameConstructed }
          else
            -- NDIlib_find_destroy(pNDI_find);
            .ok { world := { info := { info2 with pNDI_recv := some b2.world.nextHandle },
                             ndi_name := out,
                             nextHandle := b2.world.nextHandle + 1,
                             calls := b2.world.calls ++
                               [NDICall.recv_create_v3 src (some b2.world.nextHandle),
                                NDICall.find_destroy pNDI_find] },
                  nameConstructed := b2.nameConstructed }
    else .ok b2

/-- The case `kNDIIndex` of the handler, on a block. -/
def caseNDIIndexOnBlock (env : NDIEnv) (fuel : Nat) (b : PluginBlock) (inNewValue : Value) :
    Except BlockFault PluginBlock :=
  let w := b.world
  -- info->mNDIIndex = (int)inNewValue->u.ivalue;
  let info1 : PluginInfo := { w.info with mNDIIndex := toInt inNewValue.ivalue }
  -- pNDI_find = NDIlib_find_create_v2(...); if (!pNDI_find) break;
  if env.find_create_v2 = false then
    .ok { b with world :=
            { w with info := info1, calls := w.calls ++ [NDICall.find_create_v2 none] } }
  else
    let pNDI_find := w.nextHandle
    let calls1 := w.calls ++ [NDICall.find_create_v2 (some pNDI_find)]
    -- p_sources = NULL; no_sources = 0; while (!no_sources) ...
    match discoveryLoop env pNDI_find fuel 0 ⟨none, 0⟩ calls1 with
    | none => .error (BlockFault.handlerFault Fault.outOfFuel)
    | some (r, calls2) =>
      resolveAndConnectOnBlock env
        { b with world :=
            { w with info := info1, nextHandle := w.nextHandle + 1, calls := calls2 } }
        pNDI_find r

/-- `HandlePropertyChangeValue` on a block.  Only case `kNDIIndex` touches the string
member; the other cases are the ones of `HandlePropertyChangeValue`. -/
def HandlePropertyChangeValueOnBlock (env : NDIEnv) (fuel : Nat) (b : PluginBlock)
    (inPropertyIndex1 : Nat) (inNewValue : Value) : Except BlockFault PluginBlock :=
  if inPropertyIndex1 = kNDIIndex then caseNDIIndexOnBlock env fuel b inNewValue
  else
    liftToBlock b.nameConstructed
      (HandlePropertyChangeValue env fuel b.world inPropertyIndex1 inNewValue)

/-! ## Reading resources back from the call log -/

/-- The effect of one library call on the list of open finders. -/
def finderStep (acc : List Nat) : NDICall → List Nat
  | NDICall.find_create_v2 (some h) => acc ++ [h]
  | NDICall.find_destroy h => acc.filter (fun x => x ≠ h)
  | _ => acc

/-- The finders that were created and not destroyed, oldest first. -/
def openFinders (calls : List NDICall) : List Nat := calls.foldl finderStep []

/-- The effect of one library call on the list of open receivers. -/
def recvStep (acc : List (Nat × NDIlib_source_t)) : NDICall → List (Nat × NDIlib_source_t)
  | NDICall.recv_create_v3 src (some h) => acc ++ [(h, src)]
  | NDICall.recv_destroy (some h) => acc.filter (fun x => x.1 ≠ h)
  | _ => acc

/-- The receivers that were created and not destroyed, oldest first, each with the
source it was created for. -/
def openReceivers (calls : List NDICall) : List (Nat × NDIlib_source_t) :=
  calls.foldl recvStep []

/-- Whether the call destroys a receiver. -/
def isRecvDestroy : NDICall → Bool
  | NDICall.recv_destroy _ => true
  | _ => false

/-- Whether the call is a motion command (pan/tilt or zoom). -/
def isMotionCommand : NDICall → Bool
  | NDICall.recv_ptz_pan_tilt _ _ _ => true
  | NDICall.recv_ptz_zoom _ _ => true
  | _ => false

/-- Whether the call operates on a receiver pointer. -/
def isReceiverCall : NDICall → Bool
  | NDICall.recv_destroy _ => true
  | NDICall.recv_capture_v3 _ _ => true
  | NDICall.recv_ptz_is_supported _ => true
  | NDICall.recv_ptz_pan_tilt _ _ _ => true
  | NDICall.recv_ptz_zoom _ _ => true
  | _ => false

/-- The library calls of `n` rounds of the discovery loop on finder `pNDI_find`. -/
def pollCalls (pNDI_find : Nat) : Nat → List NDICall
  | 0 => []
  | n + 1 =>
    NDICall.find_wait_for_sources pNDI_find 1000 ::
      NDICall.find_get_current_sources pNDI_find :: pollCalls pNDI_find n

/-- The scan of one handler invocation completes at poll `k` with result `r`: the
finder is created, the polls before `k` report zero sources, and poll `k` reports
`r`, whose count is not zero. -/
def ScanCompletes (env : NDIEnv) (k : Nat) (r : PollResult) : Prop :=
  env.find_create_v2 = true ∧
  (∀ j, j < k → (env.current_sources j).no_sources = 0) ∧
  env.current_sources k = r ∧ r.no_sources ≠ 0

/-- A sequence of `ndi_index` change events, each with the library answers and the
loop fuel of its own invocation, handled one after the other. -/
def runIndexEvents (w : World) : List (NDIEnv × Nat × Value) → Except Fault World
  | [] => .ok w
  | (env, fuel, v) :: rest =>
    match HandlePropertyChangeValue env fuel w kNDIIndex v with
    | .ok w1 => runIndexEvents w1 rest
    | .error e => .error e

/-- Clamping to the interval `[-1, 1]`, as the specification words `setAxis`. -/
def clampAxis (v : Rat) : Rat := max (-1) (min 1 v)

/-! ## DisposeActor -/

/-- The host's `ActorInfo` as `DisposeActor` sees it: what `mActorDataPtr` points at,
and whether that block is still allocated.  The plugin never resets the pointer. -/
structure ActorInfo where
  /-- the `PluginInfo` behind `mActorDataPtr`, with the output and the call log -/
  world : World
  /-- whether the block behind `mActorDataPtr` has not been handed to `IzzyFree_` -/
  mActorDataAllocated : Bool
  deriving DecidableEq, Repr

/-- The way `DisposeActor` can fail to be defined. -/
inductive DisposeFault where
  /-- `info->pNDI_recv` was read from a `PluginInfo` block that was freed already -/
  | useAfterFree
  deriving DecidableEq, Repr

/-- `DisposeActor`: destroy the receiver held, destroy the library, free the
`PluginInfo`.  Both assertions only ask for a non-nil pointer, which a freed block
still has. -/
def DisposeActor (ioActorInfo : ActorInfo) : Except DisposeFault ActorInfo :=
  -- PluginInfo* info = GetPluginInfo_(ioActorInfo);
  if ioActorInfo.mActorDataAllocated = false then .error DisposeFault.useAfterFree
  else
    let info := ioActorInfo.world.info
    .ok { world :=
            { ioActorInfo.world with
              -- NDIlib_recv_destroy(info->pNDI_recv); NDIlib_destroy();
              calls := ioActorInfo.world.calls ++
                [NDICall.recv_destroy info.pNDI_recv, NDICall.lib_destroy_call] },
          -- IzzyFree_(ip, ioActorInfo->mActorDataPtr);
          mActorDataAllocated := false }

/-- The `ActorInfo` right after `CreateActor` stored the new block in it. -/
def actorOf (w : World) : ActorInfo := { world := w, mActorDataAllocated := true }

/-! ## Property definitions and help strings -/

/-- The property definition string `sPropertyDefinitionString`, one entry per line
(the lines end in a carriage return), each line split into its fields. -/
def sPropertyDefinitionString : List (List String) :=
  [ ["INPROP", "ndi_index", "ndiD", "int", "number", "0", "100", "0"],
    ["INPROP", "vert_amnt", "udam", "float", "number", "-1", "1", "0"],
    ["INPROP", "horiz_amnt", "lram", "float", "number", "-1", "1", "0"],
    ["INPROP", "zoom_amnt", "zmam", "float", "number", "-1", "1", "0"],
    ["INPROP", "go_move", "trgr", "bool", "trig", "0", "1", "0"],
    ["OUTPROP", "ndi_name", "name", "string", "text", "*", "*"] ]

/-- The number of lines of the property definition string of the given type. -/
def countProperties (type : String) : Nat :=
  (sPropertyDefinitionString.filter (fun line => line.head? = some type)).length

/-- The number of input properties. -/
def numInputs : Nat := countProperties "INPROP"

/-- The number of output properties. -/
def numOutputs : Nat := countProperties "OUTPROP"

/-- The array `sHelpStrings`.  Adjacent string literals with no comma between them
are one array element, which is how the second entry is written in the source. -/
def sHelpStrings : List String :=
  [ -- ACTOR HELP
    "NDI PTZ Controller",
    -- INPUT HELP
    "The NDI Index\r" ++
    "Up / Down Amount to Move",
    "Left / Right Amount to Move",
    "Zoom In  / Zoom Out",
    "Trigger Move",
    -- OUTPUT HELP
    "Name of Selected NDI Feed" ]

/-- The property types `GetHelpString` is called with. -/
inductive PropertyType where
  | kPropertyTypeInvalid
  | kInputProperty
  | kOutputProperty
  deriving DecidableEq, Repr

/-- Modelled from the spec: the host callback `PropertyTypeAndIndexToHelpIndex_`
(declared in IsadoraCallbacks.h, which is not among the sources).  It turns the
property type and the one-based property index into the zero-based index into the
help strings, which are ordered: the actor, then the inputs, then the outputs. -/
def PropertyTypeAndIndexToHelpIndex_ (inPropertyType : PropertyType)
    (inPropertyIndex1 : Nat) : Nat :=
  match inPropertyType with
  | PropertyType.kPropertyTypeInvalid => 0
  | PropertyType.kInputProperty => inPropertyIndex1
  | PropertyType.kOutputProperty => numInputs + inPropertyIndex1

/-- `GetHelpString`: look the help string up and copy at most `inMaxCharacters`
characters of it.  The result is `none` when `sHelpStrings[index1]` lies past the
end of the array. -/
def GetHelpString (inPropertyType : PropertyType) (inPropertyIndex1 : Nat)
    (inMaxCharacters : Nat) : Option String :=
  -- UInt32 index1 = PropertyTypeAndIndexToHelpIndex_(ip, inActorInfo, inPropertyType, inPropertyIndex1);
  let index1 := PropertyTypeAndIndexToHelpIndex_ inPropertyType inPropertyIndex1
  -- helpstr = sHelpStrings[index1];
  match sHelpStrings.get? index1 with
  | none => none
  -- strncpy(outParamaterString, helpstr, inMaxCharacters);
  | some helpstr => some (String.mk (helpstr.data.take inMaxCharacters))

/-! ## Sample data -/

def srcA : NDIlib_source_t := ⟨"A", "10.0.0.1:5961"⟩
def srcB : NDIlib_source_t := ⟨"B", "10.0.0.2:5961"⟩
def srcC : NDIlib_source_t := ⟨"C", "10.0.0.3:5961"⟩

/-- A network on which the first poll already reports the three sources A, B, C;
receivers are created when `connects` allows it. -/
def envABC (connects : Bool) : NDIEnv :=
  { find_create_v2 := true,
    current_sources := fun _ => ⟨some [srcA, srcB, srcC], 3⟩,
    recv_create_v3 := fun _ => connects,
    recv_capture_v3 := fun _ => NDIlib_frame_type_e.frame_type_none,
    recv_ptz_is_supported := fun _ => false }

/-- The state of a fresh actor after `ndi_index = 1` was handled on `envABC true`:
bound to B through receiver handle 1. -/
def actorBoundToB : World :=
  { info := { mNDIIndex := 1, mSelectedNDIName := "B", mHorizAmount := 0, mVertAmount := 0,
              mZoomAmount := 0, pNDI_recv := some 1 },
    ndi_name := "B",
    nextHandle := 2,
    calls := [NDICall.lib_initialize_call, NDICall.find_create_v2 (some 0),
              NDICall.find_wait_for_sources 0 1000, NDICall.find_get_current_sources 0,
              NDICall.recv_create_v3 srcB (some 1), NDICall.find_destroy 0] }

/-- A library whose status poll reports a status change on every receiver pointer
and whose PTZ query answers `supported`. -/
def envStatusChange (supported : Bool) : NDIEnv :=
  { find_create_v2 := true,
    current_sources := fun _ => ⟨some [srcA, srcB, srcC], 3⟩,
    recv_create_v3 := fun _ => true,
    recv_capture_v3 := fun _ => NDIlib_frame_type_e.frame_type_status_change,
    recv_ptz_is_supported := fun _ => supported }

/-- A network whose first poll reports a count of 3 together with a `NULL` array. -/
def envNullSources : NDIEnv :=
  { find_create_v2 := true,
    current_sources := fun _ => ⟨none, 3⟩,
    recv_create_v3 := fun _ => true,
    recv_capture_v3 := fun _ => NDIlib_frame_type_e.frame_type_none,
    recv_ptz_is_supported := fun _ => false }

/-- A network on which no source is ever reported. -/
def envSilent : NDIEnv :=
  { find_create_v2 := true,
    current_sources := fun _ => ⟨none, 0⟩,
    recv_create_v3 := fun _ => true,
    recv_capture_v3 := fun _ => NDIlib_frame_type_e.frame_type_none,
    recv_ptz_is_supported := fun _ => false }

/-- The actor bound to B after 1/2, -1/4 and 1 were delivered on `horiz_amnt`,
`vert_amnt` and `zoom_amnt`. -/
def actorBoundToBWithAmounts : World :=
  { actorBoundToB with
    info := { actorBoundToB.info with
              mHorizAmount := 1 / 2, mVertAmount := -1 / 4, mZoomAmount := 1 } }

/-- The actor bound to B as a block whose string member is a live object. -/
def blockBoundToB : PluginBlock := { world := actorBoundToB, nameConstructed := true }

/-! ## Lemmas on machine integers -/

theorem toInt_of_isInt32 (x : Int) (h : isInt32 x) : toInt x = x := by
  unfold isInt32 at h
  unfold toInt
  omega

theorem toUInt32_of_nonneg (x : Int) (h : isInt32 x) (h0 : 0 ≤ x) :
    toUInt32 x = x.toNat := by
  unfold isInt32 at h
  unfold toUInt32
  omega

theorem toUInt32_of_neg (x : Int) (h : isInt32 x) (h0 : x < 0) :
    (toUInt32 x : Int) = 4294967296 + x := by
  unfold isInt32 at h
  unfold toUInt32
  omega

/-! ## Lemmas on the discovery loop -/

theorem pollCalls_succ_append (f n : Nat) :
    pollCalls f (n + 1) =
      [NDICall.find_wait_for_sources f 1000, NDICall.find_get_current_sources f] ++
        pollCalls f n := by
  simp [pollCalls]

/-- Once a nonzero count is held, the loop is left at once, whatever the fuel. -/
theorem discoveryLoop_of_nonzero (env : NDIEnv) (f fuel k0 : Nat) (cur : PollResult)
    (calls : List NDICall) (h : cur.no_sources ≠ 0) :
    discoveryLoop env f fuel k0 cur calls = some (cur, calls) := by
  cases fuel <;> simp [discoveryLoop, h]

/-- If the first nonzero count comes with poll `k0 + k`, the loop is left after
`k + 1` rounds with that poll's result, provided the fuel exceeds `k`. -/
theorem discoveryLoop_completes (env : NDIEnv) (f : Nat) :
    ∀ (k fuel k0 : Nat) (cur : PollResult) (calls : List NDICall),
      cur.no_sources = 0 →
      (∀ j, j < k → (env.current_sources (k0 + j)).no_sources = 0) →
      (env.current_sources (k0 + k)).no_sources ≠ 0 →
      k < fuel →
      discoveryLoop env f fuel k0 cur calls =
        some (env.current_sources (k0 + k), calls ++ pollCalls f (k + 1)) := by
  intro k
  induction k with
  | zero =>
    intro fuel k0 cur calls hcur _ hk hfuel
    obtain ⟨fuel1, rfl⟩ : ∃ m, fuel = m + 1 := ⟨fuel - 1, by omega⟩
    simp only [Nat.add_zero] at hk ⊢
    simp [discoveryLoop, hcur, discoveryLoop_of_nonzero env f fuel1 (k0 + 1) _ _ hk,
      pollCalls]
  | succ k ih =>
    intro fuel k0 cur calls hcur hzero hk hfuel
    obtain ⟨fuel1, rfl⟩ : ∃ m, fuel = m + 1 := ⟨fuel - 1, by omega⟩
    have h0 : (env.current_sources k0).no_sources = 0 := by
      simpa using hzero 0 (by omega)
    have hz : ∀ j, j < k → (env.current_sources (k0 + 1 + j)).no_sources = 0 := by
      intro j hj
      have := hzero (j + 1) (by omega)
      simpa [Nat.add_assoc, Nat.add_comm 1 j] using this
    have hk1 : (env.current_sources (k0 + 1 + k)).no_sources ≠ 0 := by
      simpa [Nat.add_assoc, Nat.add_comm 1 k] using hk
    have step := ih fuel1 (k0 + 1) (env.current_sources k0)
      (calls ++ [NDICall.find_wait_for_sources f 1000, NDICall.find_get_current_sources f])
      h0 hz hk1 (by omega)
    have e : k0 + 1 + k = k0 + (k + 1) := by omega
    rw [e] at step
    simp only [discoveryLoop, hcur, ne_eq, not_true_eq_false, if_false]
    rw [step, pollCalls_succ_append f (k + 1)]
    simp

/-- While every poll the fuel allows reports zero sources, the loop is not left. -/
theorem discoveryLoop_none (env : NDIEnv) (f : Nat) :
    ∀ (fuel k0 : Nat) (cur : PollResult) (calls : List NDICall),
      cur.no_sources = 0 →
      (∀ j, j < fuel → (env.current_sources (k0 + j)).no_sources = 0) →
      discoveryLoop env f fuel k0 cur calls = none := by
  intro fuel
  induction fuel with
  | zero => intro k0 cur calls hcur _; simp [discoveryLoop, hcur]
  | succ n ih =>
    intro k0 cur calls hcur hz
    simp only [discoveryLoop, hcur, ne_eq, not_true_eq_false, if_false]
    refine ih (k0 + 1) _ _ (by simpa using hz 0 (by omega)) ?_
    intro j hj
    have := hz (j + 1) (by omega)
    simpa [Nat.add_assoc, Nat.add_comm 1 j] using this

/-- Whenever the loop is left, the count it holds is not zero and the calls it
added are whole rounds of wait and poll. -/
theorem discoveryLoop_some (env : NDIEnv) (f : Nat) :
    ∀ (fuel k0 : Nat) (cur : PollResult) (calls : List NDICall) (r : PollResult)
      (calls2 : List NDICall),
      discoveryLoop env f fuel k0 cur calls = some (r, calls2) →
      r.no_sources ≠ 0 ∧ ∃ n, calls2 = calls ++ pollCalls f n := by
  intro fuel
  induction fuel with
  | zero =>
    intro k0 cur calls r calls2 h
    by_cases hc : cur.no_sources = 0
    · simp [discoveryLoop, hc] at h
    · simp only [discoveryLoop, ne_eq, hc, not_false_eq_true, if_true, Option.some.injEq,
        Prod.mk.injEq] at h
      obtain ⟨rfl, rfl⟩ := h
      exact ⟨hc, 0, by simp [pollCalls]⟩
  | succ n ih =>
    intro k0 cur calls r calls2 h
    by_cases hc : cur.no_sources = 0
    · simp only [discoveryLoop, hc, ne_eq, not_true_eq_false, if_false] at h
      obtain ⟨hr, m, hm⟩ := ih _ _ _ _ _ h
      refine ⟨hr, m + 1, ?_⟩
      rw [hm, pollCalls_succ_append]
      simp
    · simp only [discoveryLoop, ne_eq, hc, not_false_eq_true, if_true, Option.some.injEq,
        Prod.mk.injEq] at h
      obtain ⟨rfl, rfl⟩ := h
      exact ⟨hc, 0, by simp [pollCalls]⟩

/-- With a completing scan and enough fuel, case `kNDIIndex` is the resolution step
run on the state the loop leaves behind. -/
theorem caseNDIIndex_of_scan (env : NDIEnv) (fuel k : Nat) (w : World) (v : Value)
    (r : PollResult) (hscan : ScanCompletes env k r) (hfuel : k < fuel) :
    caseNDIIndex env fuel w v =
      resolveAndConnect env
        { w with info := { w.info with mNDIIndex := toInt v.ivalue },
                 nextHandle := w.nextHandle + 1,
                 calls := w.calls ++ NDICall.find_create_v2 (some w.nextHandle) ::
                   pollCalls w.nextHandle (k + 1) }
        w.nextHandle r := by
  obtain ⟨hfind, hzero, hk, hr⟩ := hscan
  have hloop := discoveryLoop_completes env w.nextHandle k fuel 0 ⟨none, 0⟩
    (w.calls ++ [NDICall.find_create_v2 (some w.nextHandle)]) rfl
    (by intro j hj; simpa using hzero j hj) (by simpa [hk] using hr) hfuel
  simp only [Nat.zero_add, hk] at hloop
  simp [caseNDIIndex, hfind, hloop]

/-! ## Lemmas on the call log -/

theorem openReceivers_append (a b : List NDICall) :
    openReceivers (a ++ b) = b.foldl recvStep (openReceivers a) := by
  simp [openReceivers, List.foldl_append]

/-- Calls that destroy no receiver only ever add to the open receivers. -/
theorem foldl_recvStep_of_no_destroy (b : List NDICall)
    (hb : ∀ c ∈ b, isRecvDestroy c = false) :
    ∀ acc, b.foldl recvStep acc = acc ++ openReceivers b := by
  induction b using List.reverseRecOn with
  | nil => intro acc; simp [openReceivers]
  | append_singleton l c ih =>
    intro acc
    have hl : ∀ c ∈ l, isRecvDestroy c = false := fun x hx => hb x (by simp [hx])
    have hc : isRecvDestroy c = false := hb c (by simp)
    rw [List.foldl_append, ih hl acc, openReceivers_append]
    cases c with
    | recv_destroy r => simp [isRecvDestroy] at hc
    | recv_create_v3 src r => cases r <;> simp [recvStep]
    | _ => simp [recvStep]

theorem isRecvDestroy_pollCalls (f n : Nat) :
    ∀ c ∈ pollCalls f n, isRecvDestroy c = false := by
  induction n with
  | zero => simp [pollCalls]
  | succ n ih =>
    intro c hc
    simp only [pollCalls, List.mem_cons] at hc
    rcases hc with rfl | rfl | hc
    · rfl
    · rfl
    · exact ih c hc

theorem openReceivers_pollCalls (f n : Nat) : openReceivers (pollCalls f n) = [] := by
  induction n with
  | zero => simp [pollCalls, openReceivers]
  | succ n ih =>
    simp only [openReceivers, pollCalls, List.foldl_cons, recvStep] at ih ⊢
    exact ih

/-! ## The two outcomes of a resolved index -/

/-- The bound check passes for an in-range index and the read yields the source. -/
theorem resolved_guard (v : Value) (srcs : List NDIlib_source_t) (src : NDIlib_source_t)
    (hv : isInt32 v.ivalue) (h0 : 0 ≤ v.ivalue)
    (hsrc : srcs.get? v.ivalue.toNat = some src) :
    toUInt32 v.ivalue < srcs.length ∧ readSource srcs v.ivalue = some src := by
  obtain ⟨hlt, _⟩ := List.get?_eq_some.mp hsrc
  refine ⟨?_, by simpa [readSource, h0] using hsrc⟩
  rw [toUInt32_of_nonneg _ hv h0]
  exact hlt

/-- The state after an index event that resolves to `src` and gets a receiver. -/
theorem handleIndex_connected (env : NDIEnv) (fuel k : Nat) (w : World) (v : Value)
    (srcs : List NDIlib_source_t) (src : NDIlib_source_t)
    (hv : isInt32 v.ivalue)
    (hscan : ScanCompletes env k ⟨some srcs, srcs.length⟩)
    (hfuel : k < fuel) (h0 : 0 ≤ v.ivalue)
    (hsrc : srcs.get? v.ivalue.toNat = some src)
    (hconn : env.recv_create_v3 src = true) :
    HandlePropertyChangeValue env fuel w kNDIIndex v = .ok
      { info := { w.info with mNDIIndex := v.ivalue, mSelectedNDIName := src.p_ndi_name,
                              pNDI_recv := some (w.nextHandle + 1) },
        ndi_name := src.p_ndi_name,
        nextHandle := w.nextHandle + 2,
        calls := w.calls ++ (NDICall.find_create_v2 (some w.nextHandle) ::
          pollCalls w.nextHandle (k + 1) ++
            [NDICall.recv_create_v3 src (some (w.nextHandle + 1)),
             NDICall.find_destroy w.nextHandle]) } := by
  obtain ⟨hguard, hread⟩ := resolved_guard v srcs src hv h0 hsrc
  simp only [HandlePropertyChangeValue, if_true]
  rw [caseNDIIndex_of_scan env fuel k w v _ hscan hfuel]
  simp [resolveAndConnect, toInt_of_isInt32 _ hv, hguard, hread, hconn]

/-- The state after an index event that resolves to `src` and gets no receiver. -/
theorem handleIndex_connect_failed (env : NDIEnv) (fuel k : Nat) (w : World) (v : Value)
    (srcs : List NDIlib_source_t) (src : NDIlib_source_t)
    (hv : isInt32 v.ivalue)
    (hscan : ScanCompletes env k ⟨some srcs, srcs.length⟩)
    (hfuel : k < fuel) (h0 : 0 ≤ v.ivalue)
    (hsrc : srcs.get? v.ivalue.toNat = some src)
    (hconn : env.recv_create_v3 src = false) :
    HandlePropertyChangeValue env fuel w kNDIIndex v = .ok
      { info := { w.info with mNDIIndex := v.ivalue, mSelectedNDIName := src.p_ndi_name,
                              pNDI_recv := none },
        ndi_name := src.p_ndi_name,
        nextHandle := w.nextHandle + 1,
        calls := w.calls ++ (NDICall.find_create_v2 (some w.nextHandle) ::
          pollCalls w.nextHandle (k + 1) ++ [NDICall.recv_create_v3 src none]) } := by
  obtain ⟨hguard, hread⟩ := resolved_guard v srcs src hv h0 hsrc
  simp only [HandlePropertyChangeValue, if_true]
  rw [caseNDIIndex_of_scan env fuel k w v _ hscan hfuel]
  simp [resolveAndConnect, toInt_of_isInt32 _ hv, hguard, hread, hconn]

/-- The open receivers after a connected index event: the earlier ones and the new one. -/
theorem openReceivers_after_connected (calls : List NDICall) (f k h : Nat)
    (src : NDIlib_source_t) :
    openReceivers (calls ++ (NDICall.find_create_v2 (some f) :: pollCalls f (k + 1) ++
      [NDICall.recv_create_v3 src (some h), NDICall.find_destroy f])) =
      openReceivers calls ++ [(h, src)] := by
  rw [openReceivers_append, foldl_recvStep_of_no_destroy]
  · congr 1
    have e : NDICall.find_create_v2 (some f) :: pollCalls f (k + 1) ++
        [NDICall.recv_create_v3 src (some h), NDICall.find_destroy f] =
        (NDICall.find_create_v2 (some f) :: pollCalls f (k + 1)) ++
        [NDICall.recv_create_v3 src (some h), NDICall.find_destroy f] := by simp
    rw [e, openReceivers_append]
    have e2 : openReceivers (NDICall.find_create_v2 (some f) :: pollCalls f (k + 1)) = [] := by
      have := openReceivers_pollCalls f (k + 1)
      simpa [openReceivers, recvStep] using this
    rw [e2]
    simp [recvStep]
  · intro c hc
    simp only [List.cons_append, List.mem_cons, List.mem_append, List.mem_singleton,
      List.mem_nil_iff, or_false] at hc
    rcases hc with rfl | hc | rfl | rfl
    · rfl
    · exact isRecvDestroy_pollCalls f (k + 1) c hc
    · rfl
    · rfl

/-! ## The shape of every normal return of an index event -/

/-- Every normal return of the resolution step is one of three: nothing resolved
(state as the loop left it), resolved without a receiver, resolved with one. -/
theorem resolveAndConnect_ok (env : NDIEnv) (w2 : World) (f : Nat) (r : PollResult)
    (w' : World) (h : resolveAndConnect env w2 f r = .ok w') :
    w' = w2 ∨
    ∃ src,
      (env.recv_create_v3 src = false ∧
        w' = { info := { w2.info with mSelectedNDIName := src.p_ndi_name, pNDI_recv := none },
               ndi_name := src.p_ndi_name,
               nextHandle := w2.nextHandle,
               calls := w2.calls ++ [NDICall.recv_create_v3 src none] }) ∨
      (env.recv_create_v3 src = true ∧
        w' = { info := { w2.info with mSelectedNDIName := src.p_ndi_name,
                                      pNDI_recv := some w2.nextHandle },
               ndi_name := src.p_ndi_name,
               nextHandle := w2.nextHandle + 1,
               calls := w2.calls ++ [NDICall.recv_create_v3 src (some w2.nextHandle),
                                     NDICall.find_destroy f] }) := by
  unfold resolveAndConnect at h
  cases hp : r.p_sources with
  | none =>
    simp only [hp, Except.ok.injEq] at h
    exact Or.inl h.symm
  | some p_sources =>
    simp only [hp] at h
    by_cases hg : toUInt32 w2.info.mNDIIndex < r.no_sources
    · simp only [hg, if_true] at h
      cases hr : readSource p_sources w2.info.mNDIIndex with
      | none => simp [hr] at h
      | some src =>
        simp only [hr] at h
        right
        refine ⟨src, ?_⟩
        cases hc : env.recv_create_v3 src with
        | false =>
          simp only [hc, if_true, Except.ok.injEq] at h
          exact Or.inl ⟨rfl, h.symm⟩
        | true =>
          simp only [hc, Bool.true_eq_false, if_false, Except.ok.injEq] at h
          exact Or.inr ⟨rfl, h.symm⟩
    · simp only [hg, if_false, Except.ok.injEq] at h
      exact Or.inl h.symm

/-- The resolution step has no loop: it never runs out of fuel. -/
theorem resolveAndConnect_ne_outOfFuel (env : NDIEnv) (w2 : World) (f : Nat) (r : PollResult) :
    resolveAndConnect env w2 f r ≠ .error Fault.outOfFuel := by
  intro h
  unfold resolveAndConnect at h
  split at h
  · cases h
  · split at h
    · split at h
      · cases h
      · split at h <;> cases h
    · cases h

/-- Every normal return of an index event: either no finder was created, or the
loop was left after some rounds and the resolution step returned. -/
theorem handleIndex_ok (env : NDIEnv) (fuel : Nat) (w : World) (v : Value) (w' : World)
    (h : HandlePropertyChangeValue env fuel w kNDIIndex v = .ok w') :
    w' = { w with info := { w.info with mNDIIndex := toInt v.ivalue },
                  calls := w.calls ++ [NDICall.find_create_v2 none] } ∨
    ∃ r n, r.no_sources ≠ 0 ∧
      resolveAndConnect env
        { w with info := { w.info with mNDIIndex := toInt v.ivalue },
                 nextHandle := w.nextHandle + 1,
                 calls := w.calls ++ (NDICall.find_create_v2 (some w.nextHandle) ::
                   pollCalls w.nextHandle n) }
        w.nextHandle r = .ok w' := by
  simp only [HandlePropertyChangeValue, if_true] at h
  unfold caseNDIIndex at h
  by_cases hf : env.find_create_v2 = false
  · simp only [hf, if_true, Except.ok.injEq] at h
    exact Or.inl h.symm
  · simp only [hf, if_false] at h
    right
    cases hl : discoveryLoop env w.nextHandle fuel 0 ⟨none, 0⟩
        (w.calls ++ [NDICall.find_create_v2 (some w.nextHandle)]) with
    | none => simp [hl] at h
    | some p =>
      obtain ⟨r, calls2⟩ := p
      simp only [hl] at h
      obtain ⟨hr, n, hn⟩ := discoveryLoop_some env _ _ _ _ _ _ _ hl
      refine ⟨r, n, hr, ?_⟩
      rw [← h, hn]
      simp

/-- An index event only appends to the call log, and nothing it appends destroys a
receiver. -/
theorem handleIndex_calls (env : NDIEnv) (fuel : Nat) (w : World) (v : Value) (w' : World)
    (h : HandlePropertyChangeValue env fuel w kNDIIndex v = .ok w') :
    ∃ added, w'.calls = w.calls ++ added ∧ ∀ c ∈ added, isRecvDestroy c = false := by
  rcases handleIndex_ok env fuel w v w' h with rfl | ⟨r, n, _, hres⟩
  · exact ⟨[NDICall.find_create_v2 none], rfl, by simp [isRecvDestroy]⟩
  · have hpoll : ∀ c ∈ NDICall.find_create_v2 (some w.nextHandle) :: pollCalls w.nextHandle n,
        isRecvDestroy c = false := by
      intro c hc
      rcases List.mem_cons.mp hc with rfl | hc
      · rfl
      · exact isRecvDestroy_pollCalls _ _ c hc
    rcases resolveAndConnect_ok env _ _ r w' hres with rfl | ⟨src, ⟨_, rfl⟩ | ⟨_, rfl⟩⟩
    · exact ⟨_, rfl, hpoll⟩
    · refine ⟨(NDICall.find_create_v2 (some w.nextHandle) :: pollCalls w.nextHandle n) ++
        [NDICall.recv_create_v3 src none], by simp, ?_⟩
      intro c hc
      rcases List.mem_append.mp hc with hc | hc
      · exact hpoll c hc
      · simp only [List.mem_singleton] at hc
        subst hc
        rfl
    · refine ⟨(NDICall.find_create_v2 (some w.nextHandle) :: pollCalls w.nextHandle n) ++
        [NDICall.recv_create_v3 src (some (w.nextHandle + 1)),
         NDICall.find_destroy w.nextHandle], by simp, ?_⟩
      intro c hc
      rcases List.mem_append.mp hc with hc | hc
      · exact hpoll c hc
      · simp only [List.mem_cons, List.mem_singleton, List.mem_nil_iff, or_false] at hc
        rcases hc with rfl | rfl <;> rfl

/-! ## Lemmas on the block layer -/

/-- On a live string the resolution step on a block is the one on `World`. -/
theorem resolveAndConnectOnBlock_constructed (env : NDIEnv) (w2 : World) (f : Nat)
    (r : PollResult) :
    resolveAndConnectOnBlock env { world := w2, nameConstructed := true } f r =
      liftToBlock true (resolveAndConnect env w2 f r) := by
  unfold resolveAndConnectOnBlock resolveAndConnect
  cases r.p_sources with
  | none => rfl
  | some p =>
    by_cases hg : toUInt32 w2.info.mNDIIndex < r.no_sources
    · simp only [hg, if_true]
      cases readSource p w2.info.mNDIIndex with
      | none => rfl
      | some src =>
        cases hc : env.recv_create_v3 src <;> simp [hc, liftToBlock]
    · simp only [hg, if_false]
      rfl

/-- On a live string the handler on a block is the handler on `World`. -/
theorem handleOnBlock_constructed (env : NDIEnv) (fuel : Nat) (w : World) (i : Nat)
    (v : Value) :
    HandlePropertyChangeValueOnBlock env fuel { world := w, nameConstructed := true } i v =
      liftToBlock true (HandlePropertyChangeValue env fuel w i v) := by
  unfold HandlePropertyChangeValueOnBlock
  by_cases hi : i = kNDIIndex
  · subst hi
    simp only [if_true, HandlePropertyChangeValue]
    unfold caseNDIIndexOnBlock caseNDIIndex
    by_cases hf : env.find_create_v2 = false
    · simp only [hf, if_true]
      rfl
    · simp only [hf, if_false]
      cases discoveryLoop env w.nextHandle fuel 0 ⟨none, 0⟩
          (w.calls ++ [NDICall.find_create_v2 (some w.nextHandle)]) with
      | none => rfl
      | some p =>
        obtain ⟨r, calls2⟩ := p
        exact resolveAndConnectOnBlock_constructed env _ _ r
  · simp only [hi, if_false]

/-- Every normal return of the resolution step on a block is a normal return of the
one on `World`, and the lifetime of the string member is not changed. -/
theorem resolveAndConnectOnBlock_ok (env : NDIEnv) (b2 : PluginBlock) (f : Nat)
    (r : PollResult) (b' : PluginBlock)
    (h : resolveAndConnectOnBlock env b2 f r = .ok b') :
    resolveAndConnect env b2.world f r = .ok b'.world ∧
      b'.nameConstructed = b2.nameConstructed := by
  unfold resolveAndConnectOnBlock at h
  unfold resolveAndConnect
  cases hp : r.p_sources with
  | none =>
    simp only [hp] at h ⊢
    cases h
    exact ⟨rfl, rfl⟩
  | some p =>
    simp only [hp] at h ⊢
    by_cases hg : toUInt32 b2.world.info.mNDIIndex < r.no_sources
    · simp only [hg, if_true] at h ⊢
      cases hr : readSource p b2.world.info.mNDIIndex with
      | none => simp [hr] at h
      | some src =>
        simp only [hr] at h ⊢
        cases hc : b2.nameConstructed with
        | false => simp [hc] at h
        | true =>
          simp only [hc, Bool.true_eq_false, if_false] at h
          cases hcr : env.recv_create_v3 src with
          | false =>
            simp only [hcr, if_true] at h ⊢
            cases h
            exact ⟨rfl, rfl⟩
          | true =>
            simp only [hcr, Bool.true_eq_false, if_false] at h ⊢
            cases h
            exact ⟨rfl, rfl⟩
    · simp only [hg, if_false] at h ⊢
      cases h
      exact ⟨rfl, rfl⟩

/-- Every normal return of an index event on a block is a normal return of the
handler on `World`. -/
theorem handleIndexOnBlock_ok (env : NDIEnv) (fuel : Nat) (b : PluginBlock) (v : Value)
    (b' : PluginBlock)
    (h : HandlePropertyChangeValueOnBlock env fuel b kNDIIndex v = .ok b') :
    HandlePropertyChangeValue env fuel b.world kNDIIndex v = .ok b'.world ∧
      b'.nameConstructed = b.nameConstructed := by
  simp only [HandlePropertyChangeValueOnBlock, HandlePropertyChangeValue, if_true] at h ⊢
  unfold caseNDIIndexOnBlock at h
  unfold caseNDIIndex
  by_cases hf : env.find_create_v2 = false
  · simp only [hf, if_true] at h ⊢
    cases h
    exact ⟨rfl, rfl⟩
  · simp only [hf, if_false] at h ⊢
    cases hl : discoveryLoop env b.world.nextHandle fuel 0 ⟨none, 0⟩
        (b.world.calls ++ [NDICall.find_create_v2 (some b.world.nextHandle)]) with
    | none => simp [hl] at h
    | some p =>
      obtain ⟨r, calls2⟩ := p
      simp only [hl] at h ⊢
      exact resolveAndConnectOnBlock_ok env _ _ r b' h

/-- On a never-constructed string, an index event that resolves to a source stops
at the assignment of the name. -/
theorem handleIndexOnBlock_unconstructed (env : NDIEnv) (fuel k : Nat) (b : PluginBlock)
    (v : Value) (srcs : List NDIlib_source_t) (src : NDIlib_source_t)
    (hv : isInt32 v.ivalue)
    (hscan : ScanCompletes env k ⟨some srcs, srcs.length⟩)
    (hfuel : k < fuel) (h0 : 0 ≤ v.ivalue)
    (hsrc : srcs.get? v.ivalue.toNat = some src)
    (hraw : b.nameConstructed = false) :
    HandlePropertyChangeValueOnBlock env fuel b kNDIIndex v =
      .error BlockFault.assignToUnconstructedString := by
  obtain ⟨hguard, hread⟩ := resolved_guard v srcs src hv h0 hsrc
  obtain ⟨hfind, hzero, hk, hr⟩ := hscan
  have hloop := discoveryLoop_completes env b.world.nextHandle k fuel 0 ⟨none, 0⟩
    (b.world.calls ++ [NDICall.find_create_v2 (some b.world.nextHandle)]) rfl
    (by intro j hj; simpa using hzero j hj) (by simpa [hk] using hr) hfuel
  simp only [Nat.zero_add, hk] at hloop
  simp [HandlePropertyChangeValueOnBlock, caseNDIIndexOnBlock, hfind, hloop,
    resolveAndConnectOnBlock, toInt_of_isInt32 _ hv, hguard, hread, hraw]

/-- An index event that returns with another `ndi_name` output left the loop with a
non-`NULL` source array and read the source at the position of the index; its name
is the output and the stored name, and a receiver was asked for it. -/
theorem handleIndex_name_changed (env : NDIEnv) (fuel : Nat) (w : World) (v : Value)
    (w' : World)
    (h : HandlePropertyChangeValue env fuel w kNDIIndex v = .ok w')
    (hne : w'.ndi_name ≠ w.ndi_name) :
    ∃ r calls2 srcs s,
      discoveryLoop env w.nextHandle fuel 0 ⟨none, 0⟩
        (w.calls ++ [NDICall.find_create_v2 (some w.nextHandle)]) = some (r, calls2) ∧
      r.p_sources = some srcs ∧
      readSource srcs (toInt v.ivalue) = some s ∧
      w'.ndi_name = s.p_ndi_name ∧
      w'.info.mSelectedNDIName = s.p_ndi_name ∧
      NDICall.recv_create_v3 s w'.info.pNDI_recv ∈ w'.calls := by
  simp only [HandlePropertyChangeValue, if_true] at h
  unfold caseNDIIndex at h
  by_cases hf : env.find_create_v2 = false
  · simp only [hf, if_true] at h
    cases h
    exact absurd rfl hne
  · simp only [hf, if_false] at h
    cases hl : discoveryLoop env w.nextHandle fuel 0 ⟨none, 0⟩
        (w.calls ++ [NDICall.find_create_v2 (some w.nextHandle)]) with
    | none => simp [hl] at h
    | some p =>
      obtain ⟨r, calls2⟩ := p
      simp only [hl] at h
      unfold resolveAndConnect at h
      cases hp : r.p_sources with
      | none =>
        simp only [hp] at h
        cases h
        exact absurd rfl hne
      | some srcs =>
        simp only [hp] at h
        by_cases hg : toUInt32 (toInt v.ivalue) < r.no_sources
        · simp only [hg, if_true] at h
          cases hr : readSource srcs (toInt v.ivalue) with
          | none => simp [hr] at h
          | some s =>
            simp only [hr] at h
            refine ⟨r, calls2, srcs, s, rfl, hp, hr, ?_⟩
            cases hc : env.recv_create_v3 s with
            | false =>
              simp only [hc, if_true] at h
              cases h
              exact ⟨rfl, rfl, by simp⟩
            | true =>
              simp only [hc, Bool.true_eq_false, if_false] at h
              cases h
              exact ⟨rfl, rfl, by simp⟩
        · simp only [hg, if_false] at h
          cases h
          exact absurd rfl hne

/-! ## C1: an index outside the scan result -/

/-- C1: with a completed scan result of `n` sources (at most `2^31`, so that every
position is an `int` index) and a 32-bit index that does not satisfy
`0 ≤ index < n` (`index ≥ n`, or a negative index), the handler returns having
resolved nothing: only `mNDIIndex` is written, so the receiver handle, the stored
selected name and the `ndi_name` output are as before, and the only library calls
are the creation of the finder and the polls. -/
theorem C1_unresolved_index_keeps_session (env : NDIEnv) (fuel k : Nat) (w : World)
    (v : Value) (srcs : List NDIlib_source_t)
    (hv : isInt32 v.ivalue)
    (hscan : ScanCompletes env k ⟨some srcs, srcs.length⟩)
    (hfuel : k < fuel)
    (hn : srcs.length ≤ 2147483648)
    (hout : ¬ (0 ≤ v.ivalue ∧ v.ivalue < srcs.length)) :
    ∃ w', HandlePropertyChangeValue env fuel w kNDIIndex v = .ok w' ∧
      w'.info = { w.info with mNDIIndex := v.ivalue } ∧
      w'.info.pNDI_recv = w.info.pNDI_recv ∧
      w'.info.mSelectedNDIName = w.info.mSelectedNDIName ∧
      w'.ndi_name = w.ndi_name ∧
      w'.calls = w.calls ++ NDICall.find_create_v2 (some w.nextHandle) ::
        pollCalls w.nextHandle (k + 1) := by
  have hguard : ¬ toUInt32 v.ivalue < srcs.length := by
    by_cases h0 : 0 ≤ v.ivalue
    · rw [toUInt32_of_nonneg _ hv h0]
      have : ¬ v.ivalue < srcs.length := fun h => hout ⟨h0, h⟩
      omega
    · have := toUInt32_of_neg _ hv (by omega)
      have hlo : -2147483648 ≤ v.ivalue := hv.1
      omega
  simp only [HandlePropertyChangeValue, if_true]
  rw [caseNDIIndex_of_scan env fuel k w v _ hscan hfuel]
  simp [resolveAndConnect, toInt_of_isInt32 _ hv, hguard]

/-- C1 witness: the actor bound to B, sources A, B, C, once with index 5 and once
with index -1. -/
theorem C1_unresolved_index_keeps_session_witness :
    (∃ w', HandlePropertyChangeValue (envABC true) 1 actorBoundToB kNDIIndex ⟨5, 0⟩ = .ok w' ∧
      w'.info = { actorBoundToB.info with mNDIIndex := 5 } ∧
      w'.info.pNDI_recv = actorBoundToB.info.pNDI_recv ∧
      w'.info.mSelectedNDIName = actorBoundToB.info.mSelectedNDIName ∧
      w'.ndi_name = actorBoundToB.ndi_name ∧
      w'.calls = actorBoundToB.calls ++
        NDICall.find_create_v2 (some actorBoundToB.nextHandle) ::
          pollCalls actorBoundToB.nextHandle (0 + 1)) ∧
    (∃ w', HandlePropertyChangeValue (envABC true) 1 actorBoundToB kNDIIndex ⟨-1, 0⟩ = .ok w' ∧
      w'.info = { actorBoundToB.info with mNDIIndex := -1 } ∧
      w'.info.pNDI_recv = actorBoundToB.info.pNDI_recv ∧
      w'.info.mSelectedNDIName = actorBoundToB.info.mSelectedNDIName ∧
      w'.ndi_name = actorBoundToB.ndi_name ∧
      w'.calls = actorBoundToB.calls ++
        NDICall.find_create_v2 (some actorBoundToB.nextHandle) ::
          pollCalls actorBoundToB.nextHandle (0 + 1)) :=
  ⟨C1_unresolved_index_keeps_session (envABC true) 1 0 actorBoundToB ⟨5, 0⟩
      [srcA, srcB, srcC] (by decide) ⟨rfl, by intro j hj; omega, rfl, by decide⟩ (by decide)
      (by decide) (by decide),
    C1_unresolved_index_keeps_session (envABC true) 1 0 actorBoundToB ⟨-1, 0⟩
      [srcA, srcB, srcC] (by decide) ⟨rfl, by intro j hj; omega, rfl, by decide⟩ (by decide)
      (by decide) (by decide)⟩

/-! ## C2: an index inside the scan result, receiver created -/

/-- C2 (evaluation at the failing input, and the behaviour next to it): take a
completed scan result of `n` sources, a 32-bit index with `0 ≤ index < n`, and a
library that creates the receiver.  On a block whose `mSelectedNDIName` is a live
string the handler returns with the `ndi_name` output and the stored selected name
equal to the name of the source at position `index`, and with the session holding
the handle that `NDIlib_recv_create_v3` returned for that very source.  On a block
whose string member was never constructed, which is what `CreateActor` leaves, the
handler does not return: it stops at the assignment of the name. -/
theorem C2_resolved_index_needs_live_name_string (env : NDIEnv) (fuel k : Nat)
    (b : PluginBlock) (v : Value) (srcs : List NDIlib_source_t)
    (hv : isInt32 v.ivalue)
    (hscan : ScanCompletes env k ⟨some srcs, srcs.length⟩)
    (hfuel : k < fuel)
    (h0 : 0 ≤ v.ivalue) (hn : v.ivalue < srcs.length)
    (hconn : ∀ src, srcs.get? v.ivalue.toNat = some src → env.recv_create_v3 src = true) :
    (b.nameConstructed = true →
      ∃ b' src h, HandlePropertyChangeValueOnBlock env fuel b kNDIIndex v = .ok b' ∧
        srcs.get? v.ivalue.toNat = some src ∧
        b'.world.ndi_name = src.p_ndi_name ∧
        b'.world.info.mSelectedNDIName = src.p_ndi_name ∧
        b'.world.info.pNDI_recv = some h ∧
        NDICall.recv_create_v3 src (some h) ∈ b'.world.calls ∧
        (h, src) ∈ openReceivers b'.world.calls) ∧
    (b.nameConstructed = false →
      HandlePropertyChangeValueOnBlock env fuel b kNDIIndex v =
        .error BlockFault.assignToUnconstructedString) := by
  have hlt : v.ivalue.toNat < srcs.length := by omega
  have hsrc : srcs.get? v.ivalue.toNat = some (srcs.get ⟨v.ivalue.toNat, hlt⟩) :=
    List.get?_eq_get hlt
  constructor
  · intro hlive
    obtain ⟨w, c⟩ := b
    simp only at hlive
    subst hlive
    have hrun := handleIndex_connected env fuel k w v srcs _ hv hscan hfuel h0 hsrc
      (hconn _ hsrc)
    have hblock := handleOnBlock_constructed env fuel w kNDIIndex v
    rw [hrun] at hblock
    refine ⟨_, srcs.get ⟨v.ivalue.toNat, hlt⟩, w.nextHandle + 1, hblock, hsrc, rfl, rfl, rfl,
      ?_, ?_⟩
    · simp
    · simp only [openReceivers_after_connected]
      simp
  · intro hraw
    exact handleIndexOnBlock_unconstructed env fuel k b v srcs _ hv hscan hfuel h0 hsrc hraw

/-- C2 witness: a fresh actor, sources A, B, C and index 1: the handler stops at the
assignment of the name; the same event on the block bound to B, whose string is
live, gives the name of B and a session bound to B. -/
theorem C2_resolved_index_needs_live_name_string_witness :
    CreateActorBlock.nameConstructed = false ∧
    HandlePropertyChangeValueOnBlock (envABC true) 1 CreateActorBlock kNDIIndex ⟨1, 0⟩ =
      .error BlockFault.assignToUnconstructedString ∧
    ∃ b' src h,
      HandlePropertyChangeValueOnBlock (envABC true) 1 blockBoundToB kNDIIndex ⟨1, 0⟩ =
        .ok b' ∧
      [srcA, srcB, srcC].get? (1 : Int).toNat = some src ∧
      b'.world.ndi_name = src.p_ndi_name ∧
      b'.world.info.mSelectedNDIName = src.p_ndi_name ∧
      b'.world.info.pNDI_recv = some h ∧
      NDICall.recv_create_v3 src (some h) ∈ b'.world.calls ∧
      (h, src) ∈ openReceivers b'.world.calls :=
  ⟨rfl,
    (C2_resolved_index_needs_live_name_string (envABC true) 1 0 CreateActorBlock ⟨1, 0⟩
      [srcA, srcB, srcC] (by decide) ⟨rfl, by intro j hj; omega, rfl, by decide⟩ (by decide)
      (by decide) (by decide) (fun _ _ => rfl)).2 rfl,
    (C2_resolved_index_needs_live_name_string (envABC true) 1 0 blockBoundToB ⟨1, 0⟩
      [srcA, srcB, srcC] (by decide) ⟨rfl, by intro j hj; omega, rfl, by decide⟩ (by decide)
      (by decide) (by decide) (fun _ _ => rfl)).1 rfl⟩

/-! ## C3: receivers across a sequence of index events -/

/-- C3 (amended): over every sequence of `ndi_index` change events that the handler
completes, no receiver is destroyed: the calls appended to the log contain no
`NDIlib_recv_destroy`, and the receivers open afterwards are the ones open before
followed by every receiver created during the sequence. -/
theorem C3_receivers_only_accumulate (evs : List (NDIEnv × Nat × Value)) :
    ∀ (w w' : World), runIndexEvents w evs = .ok w' →
      ∃ added, w'.calls = w.calls ++ added ∧
        (∀ c ∈ added, isRecvDestroy c = false) ∧
        openReceivers w'.calls = openReceivers w.calls ++ openReceivers added := by
  induction evs with
  | nil =>
    intro w w' h
    simp only [runIndexEvents, Except.ok.injEq] at h
    subst h
    exact ⟨[], by simp, by simp, by simp [openReceivers]⟩
  | cons ev rest ih =>
    intro w w' h
    obtain ⟨env, fuel, v⟩ := ev
    simp only [runIndexEvents] at h
    cases h1 : HandlePropertyChangeValue env fuel w kNDIIndex v with
    | error e => simp [h1] at h
    | ok w1 =>
      simp only [h1] at h
      obtain ⟨a1, hc1, hd1⟩ := handleIndex_calls env fuel w v w1 h1
      obtain ⟨a2, hc2, hd2, _⟩ := ih w1 w' h
      have hd : ∀ c ∈ a1 ++ a2, isRecvDestroy c = false := by
        intro c hc
        rcases List.mem_append.mp hc with hc | hc
        · exact hd1 c hc
        · exact hd2 c hc
      refine ⟨a1 ++ a2, by rw [hc2, hc1, List.append_assoc], hd, ?_⟩
      rw [hc2, hc1, List.append_assoc, openReceivers_append,
        foldl_recvStep_of_no_destroy _ hd]

/-- C3 witness: binding A and then B from a fresh actor. -/
theorem C3_receivers_only_accumulate_witness :
    ∃ w',
      runIndexEvents CreateActor [(envABC true, 1, ⟨0, 0⟩), (envABC true, 1, ⟨1, 0⟩)] = .ok w' ∧
      ∃ added, w'.calls = CreateActor.calls ++ added ∧
        (∀ c ∈ added, isRecvDestroy c = false) ∧
        openReceivers w'.calls = openReceivers CreateActor.calls ++ openReceivers added :=
  ⟨_, rfl, C3_receivers_only_accumulate
    [(envABC true, 1, ⟨0, 0⟩), (envABC true, 1, ⟨1, 0⟩)] CreateActor _ rfl⟩

/-- C3 counterexample: a fresh actor binds A (index 0) and then B (index 1) on a
network reporting A, B, C.  After the second event the receivers of A and of B are
both open, the session holds only B's handle, and the log has no
`NDIlib_recv_destroy` at all: A's receiver was not destroyed before B's was
created. -/
theorem C3_two_receivers_open_counterexample :
    ∃ w1 w2,
      HandlePropertyChangeValue (envABC true) 1 CreateActor kNDIIndex ⟨0, 0⟩ = .ok w1 ∧
      HandlePropertyChangeValue (envABC true) 1 w1 kNDIIndex ⟨1, 0⟩ = .ok w2 ∧
      w1.info.pNDI_recv = some 1 ∧
      openReceivers w1.calls = [(1, srcA)] ∧
      w2.info.pNDI_recv = some 3 ∧
      openReceivers w2.calls = [(1, srcA), (3, srcB)] ∧
      w2.calls.all (fun c => !isRecvDestroy c) = true :=
  ⟨_, _, rfl, rfl, rfl, rfl, rfl, rfl, rfl⟩

/-! ## C4: resolving to the source already bound -/

/-- C4 (amended): when the session holds an open receiver `h` for source X (a handle
the library gave out earlier, so below `nextHandle`) and an
`ndi_index` change resolves to X again with the connection established, the handler
asks the library for a new receiver for X and destroys none: the handle held
afterwards is the newly returned one, different from `h`, and `h` stays open next
to it. -/
theorem C4_rebind_same_source_creates_receiver (env : NDIEnv) (fuel k : Nat) (w : World)
    (v : Value) (srcs : List NDIlib_source_t) (X : NDIlib_source_t) (h : Nat)
    (hv : isInt32 v.ivalue)
    (hscan : ScanCompletes env k ⟨some srcs, srcs.length⟩)
    (hfuel : k < fuel) (h0 : 0 ≤ v.ivalue)
    (hsrc : srcs.get? v.ivalue.toNat = some X)
    (hconn : env.recv_create_v3 X = true)
    (hbound : w.info.pNDI_recv = some h)
    (hopen : (h, X) ∈ openReceivers w.calls)
    (hfresh : h < w.nextHandle) :
    ∃ w', HandlePropertyChangeValue env fuel w kNDIIndex v = .ok w' ∧
      w'.info.pNDI_recv = some (w.nextHandle + 1) ∧
      w'.info.pNDI_recv ≠ w.info.pNDI_recv ∧
      w'.calls = w.calls ++ (NDICall.find_create_v2 (some w.nextHandle) ::
        pollCalls w.nextHandle (k + 1) ++
          [NDICall.recv_create_v3 X (some (w.nextHandle + 1)),
           NDICall.find_destroy w.nextHandle]) ∧
      openReceivers w'.calls = openReceivers w.calls ++ [(w.nextHandle + 1, X)] ∧
      (h, X) ∈ openReceivers w'.calls := by
  refine ⟨_, handleIndex_connected env fuel k w v srcs X hv hscan hfuel h0 hsrc hconn,
    rfl, ?_, rfl, ?_, ?_⟩
  · rw [hbound]
    simp only [ne_eq, Option.some.injEq]
    omega
  · simp only [openReceivers_after_connected]
  · simp only [openReceivers_after_connected]
    exact List.mem_append_left _ hopen

/-- C4 witness: the actor bound to B handles `ndi_index = 1` once more. -/
theorem C4_rebind_same_source_creates_receiver_witness :
    ∃ w', HandlePropertyChangeValue (envABC true) 1 actorBoundToB kNDIIndex ⟨1, 0⟩ = .ok w' ∧
      w'.info.pNDI_recv = some (actorBoundToB.nextHandle + 1) ∧
      w'.info.pNDI_recv ≠ actorBoundToB.info.pNDI_recv ∧
      w'.calls = actorBoundToB.calls ++
        (NDICall.find_create_v2 (some actorBoundToB.nextHandle) ::
          pollCalls actorBoundToB.nextHandle (0 + 1) ++
            [NDICall.recv_create_v3 srcB (some (actorBoundToB.nextHandle + 1)),
             NDICall.find_destroy actorBoundToB.nextHandle]) ∧
      openReceivers w'.calls =
        openReceivers actorBoundToB.calls ++ [(actorBoundToB.nextHandle + 1, srcB)] ∧
      (1, srcB) ∈ openReceivers w'.calls :=
  C4_rebind_same_source_creates_receiver (envABC true) 1 0 actorBoundToB ⟨1, 0⟩
    [srcA, srcB, srcC] srcB 1 (by decide) ⟨rfl, by intro j hj; omega, rfl, by decide⟩
    (by decide) (by decide) rfl rfl rfl
    (by simp [openReceivers, recvStep, actorBoundToB]) (by decide)

/-- C4 counterexample: a fresh actor handles `ndi_index = 1` twice on a network
reporting A, B, C.  Both events resolve to B; the second one makes a second
`NDIlib_recv_create_v3` call and the handle held changes from 1 to 3. -/
theorem C4_rebind_changes_handle_counterexample :
    HandlePropertyChangeValue (envABC true) 1 CreateActor kNDIIndex ⟨1, 0⟩ =
      .ok actorBoundToB ∧
    ∃ w2, HandlePropertyChangeValue (envABC true) 1 actorBoundToB kNDIIndex ⟨1, 0⟩ = .ok w2 ∧
      actorBoundToB.info.pNDI_recv = some 1 ∧
      w2.info.pNDI_recv = some 3 ∧
      w2.info.pNDI_recv ≠ actorBoundToB.info.pNDI_recv ∧
      w2.calls = actorBoundToB.calls ++
        [NDICall.find_create_v2 (some 2), NDICall.find_wait_for_sources 2 1000,
         NDICall.find_get_current_sources 2, NDICall.recv_create_v3 srcB (some 3),
         NDICall.find_destroy 2] :=
  ⟨rfl, _, rfl, rfl, rfl, by decide, rfl⟩

/-! ## C5: the axis amounts -/

/-- C5 (amended): for every value `v` delivered on `vert_amnt`, `horiz_amnt` or
`zoom_amnt`, the handler stores `v` itself in the matching amount and changes
nothing else; the stored amount is `v` clamped to `[-1, 1]` exactly when `v` lies in
`[-1, 1]`. -/
theorem C5_axis_amount_stored_as_given (env : NDIEnv) (fuel : Nat) (w : World) (v : Value) :
    HandlePropertyChangeValue env fuel w kVertAmnt v =
      .ok { w with info := { w.info with mVertAmount := v.fvalue } } ∧
    HandlePropertyChangeValue env fuel w kHorizAmnt v =
      .ok { w with info := { w.info with mHorizAmount := v.fvalue } } ∧
    HandlePropertyChangeValue env fuel w kZoomAmnt v =
      .ok { w with info := { w.info with mZoomAmount := v.fvalue } } ∧
    (v.fvalue = clampAxis v.fvalue ↔ -1 ≤ v.fvalue ∧ v.fvalue ≤ 1) := by
  refine ⟨rfl, rfl, rfl, ?_⟩
  unfold clampAxis
  constructor
  · intro h
    constructor
    · rw [h]; exact le_max_left _ _
    · rw [h]; exact max_le (by norm_num) (min_le_left _ _)
  · rintro ⟨h1, h2⟩
    rw [min_eq_right h2, max_eq_right h1]

/-- C5 counterexample: 5 delivered on `horiz_amnt` is stored as 5, not as 1, and -5
delivered on `vert_amnt` is stored as -5, not as -1. -/
theorem C5_unclamped_counterexample :
    (∃ w', HandlePropertyChangeValue envSilent 0 CreateActor kHorizAmnt ⟨0, 5⟩ = .ok w' ∧
      w'.info.mHorizAmount = 5 ∧ clampAxis 5 = 1 ∧ w'.info.mHorizAmount ≠ clampAxis 5) ∧
    (∃ w', HandlePropertyChangeValue envSilent 0 CreateActor kVertAmnt ⟨0, -5⟩ = .ok w' ∧
      w'.info.mVertAmount = -5 ∧ clampAxis (-5) = -1 ∧
      w'.info.mVertAmount ≠ clampAxis (-5)) := by
  have c1 : clampAxis 5 = 1 := by norm_num [clampAxis]
  have c2 : clampAxis (-5) = -1 := by norm_num [clampAxis]
  refine ⟨⟨_, rfl, rfl, c1, ?_⟩, ⟨_, rfl, rfl, c2, ?_⟩⟩
  · rw [c1]; show (5 : Rat) ≠ 1; norm_num
  · rw [c2]; show (-5 : Rat) ≠ -1; norm_num

/-! ## C6: trigger on a source without PTZ support -/

/-- C6: with a bound session (receiver handle `h`) whose source reports that PTZ is
not supported, handling `go_move` returns with no pan/tilt and no zoom command among
the calls it made, and with the plugin data (amounts, handle, index, selected name)
and the `ndi_name` output unchanged. -/
theorem C6_unsupported_ptz_issues_no_motion (env : NDIEnv) (fuel : Nat) (w : World)
    (v : Value) (h : Nat)
    (hbound : w.info.pNDI_recv = some h)
    (hunsupported : env.recv_ptz_is_supported (some h) = false) :
    ∃ w' added, HandlePropertyChangeValue env fuel w kTriggerGo v = .ok w' ∧
      w'.calls = w.calls ++ added ∧
      (∀ c ∈ added, isMotionCommand c = false) ∧
      w'.info = w.info ∧ w'.ndi_name = w.ndi_name := by
  have hk : HandlePropertyChangeValue env fuel w kTriggerGo v = .ok (caseTriggerGo env w) := rfl
  cases hc : env.recv_capture_v3 (some h) with
  | frame_type_status_change =>
    refine ⟨_, [NDICall.recv_capture_v3 (some h) 1000, NDICall.recv_ptz_is_supported (some h)],
      hk, ?_, ?_, ?_, ?_⟩
    · simp [caseTriggerGo, hbound, hc, hunsupported]
    · simp [isMotionCommand]
    · simp [caseTriggerGo, hbound, hc, hunsupported]
    · simp [caseTriggerGo, hbound, hc, hunsupported]
  | _ =>
    refine ⟨_, [NDICall.recv_capture_v3 (some h) 1000], hk, ?_, ?_, ?_, ?_⟩ <;>
      simp [caseTriggerGo, hbound, hc, isMotionCommand]

/-- C6 witness: the actor bound to B, a status change reported, PTZ not supported. -/
theorem C6_unsupported_ptz_issues_no_motion_witness :
    ∃ w' added,
      HandlePropertyChangeValue (envStatusChange false) 0 actorBoundToB kTriggerGo ⟨0, 0⟩ =
        .ok w' ∧
      w'.calls = actorBoundToB.calls ++ added ∧
      (∀ c ∈ added, isMotionCommand c = false) ∧
      w'.info = actorBoundToB.info ∧ w'.ndi_name = actorBoundToB.ndi_name :=
  C6_unsupported_ptz_issues_no_motion (envStatusChange false) 0 actorBoundToB ⟨0, 0⟩ 1 rfl rfl

/-! ## C7: trigger without a session -/

/-- C7 (amended): with a null receiver handle, handling `go_move` returns without
error and changes no plugin state, but it does call the library on the null
receiver: it makes the status poll `NDIlib_recv_capture_v3(NULL, ..., 1000)`, and
if that poll reports a status change it also queries PTZ support on the null
receiver and, if the query answers yes, issues the pan/tilt and zoom commands on
it.  When the poll reports anything else the status poll is the only call. -/
theorem C7_unbound_trigger_polls_null_receiver (env : NDIEnv) (fuel : Nat) (w : World)
    (v : Value) (hnull : w.info.pNDI_recv = none) :
    ∃ w', HandlePropertyChangeValue env fuel w kTriggerGo v = .ok w' ∧
      w'.info = w.info ∧ w'.ndi_name = w.ndi_name ∧ w'.nextHandle = w.nextHandle ∧
      w'.calls = w.calls ++ NDICall.recv_capture_v3 none 1000 ::
        (if env.recv_capture_v3 none = NDIlib_frame_type_e.frame_type_status_change then
          NDICall.recv_ptz_is_supported none ::
            (if env.recv_ptz_is_supported none = true then
              [NDICall.recv_ptz_pan_tilt none w.info.mHorizAmount w.info.mVertAmount,
               NDICall.recv_ptz_zoom none w.info.mZoomAmount]
             else [])
         else []) := by
  refine ⟨caseTriggerGo env w, rfl, ?_, ?_, ?_, ?_⟩ <;>
    cases hc : env.recv_capture_v3 none <;>
    cases hs : env.recv_ptz_is_supported none <;>
    simp [caseTriggerGo, hnull, hc, hs]

/-- C7 witness: a fresh actor handles `go_move`. -/
theorem C7_unbound_trigger_polls_null_receiver_witness :
    ∃ w', HandlePropertyChangeValue envSilent 0 CreateActor kTriggerGo ⟨0, 0⟩ = .ok w' ∧
      w'.info = CreateActor.info ∧ w'.ndi_name = CreateActor.ndi_name ∧
      w'.nextHandle = CreateActor.nextHandle ∧
      w'.calls = CreateActor.calls ++ NDICall.recv_capture_v3 none 1000 ::
        (if envSilent.recv_capture_v3 none = NDIlib_frame_type_e.frame_type_status_change then
          NDICall.recv_ptz_is_supported none ::
            (if envSilent.recv_ptz_is_supported none = true then
              [NDICall.recv_ptz_pan_tilt none CreateActor.info.mHorizAmount
                 CreateActor.info.mVertAmount,
               NDICall.recv_ptz_zoom none CreateActor.info.mZoomAmount]
             else [])
         else []) :=
  C7_unbound_trigger_polls_null_receiver envSilent 0 CreateActor ⟨0, 0⟩ rfl

/-- C7 counterexample: right after `CreateActor` the receiver handle is null, and
handling `go_move` makes a status poll on that null receiver. -/
theorem C7_null_receiver_polled_counterexample :
    CreateActor.info.pNDI_recv = none ∧
    HandlePropertyChangeValue envSilent 0 CreateActor kTriggerGo ⟨0, 0⟩ =
      .ok { CreateActor with
            calls := CreateActor.calls ++ [NDICall.recv_capture_v3 none 1000] } ∧
    isReceiverCall (NDICall.recv_capture_v3 none 1000) = true :=
  ⟨rfl, rfl, rfl⟩

/-! ## C8: the output name when the connection fails -/

/-- C8 (amended): on a block whose `mSelectedNDIName` is a live string, when the
index resolves to a source but no receiver is created, the handler returns with
the `ndi_name` output and the stored selected name set to the name of the resolved
source and with a null receiver handle.  More generally, whenever an index event
returns with an `ndi_name` output different from the one before, the loop was left
with a non-`NULL` source array, the index selected the source at its position in
that array, the output and the stored name are the name of that source, and the
library was asked for a receiver for it, whatever it answered. -/
theorem C8_output_name_follows_resolution (env : NDIEnv) (fuel k : Nat) (b : PluginBlock)
    (v : Value) (srcs : List NDIlib_source_t) (src : NDIlib_source_t)
    (hlive : b.nameConstructed = true)
    (hv : isInt32 v.ivalue)
    (hscan : ScanCompletes env k ⟨some srcs, srcs.length⟩)
    (hfuel : k < fuel) (h0 : 0 ≤ v.ivalue)
    (hsrc : srcs.get? v.ivalue.toNat = some src)
    (hfail : env.recv_create_v3 src = false) :
    (∃ b', HandlePropertyChangeValueOnBlock env fuel b kNDIIndex v = .ok b' ∧
      b'.world.ndi_name = src.p_ndi_name ∧
      b'.world.info.mSelectedNDIName = src.p_ndi_name ∧
      b'.world.info.pNDI_recv = none) ∧
    (∀ (env2 : NDIEnv) (fuel2 : Nat) (b0 : PluginBlock) (v2 : Value) (b2 : PluginBlock),
      HandlePropertyChangeValueOnBlock env2 fuel2 b0 kNDIIndex v2 = .ok b2 →
      b2.world.ndi_name ≠ b0.world.ndi_name →
      ∃ r calls2 srcs2 s,
        discoveryLoop env2 b0.world.nextHandle fuel2 0 ⟨none, 0⟩
          (b0.world.calls ++ [NDICall.find_create_v2 (some b0.world.nextHandle)]) =
            some (r, calls2) ∧
        r.p_sources = some srcs2 ∧
        readSource srcs2 (toInt v2.ivalue) = some s ∧
        b2.world.ndi_name = s.p_ndi_name ∧
        b2.world.info.mSelectedNDIName = s.p_ndi_name ∧
        NDICall.recv_create_v3 s b2.world.info.pNDI_recv ∈ b2.world.calls) := by
  constructor
  · obtain ⟨w, c⟩ := b
    simp only at hlive
    subst hlive
    have hrun := handleIndex_connect_failed env fuel k w v srcs src hv hscan hfuel h0 hsrc
      hfail
    have hblock := handleOnBlock_constructed env fuel w kNDIIndex v
    rw [hrun] at hblock
    exact ⟨_, hblock, rfl, rfl, rfl⟩
  · intro env2 fuel2 b0 v2 b2 hrun hne
    obtain ⟨hw, _⟩ := handleIndexOnBlock_ok env2 fuel2 b0 v2 b2 hrun
    exact handleIndex_name_changed env2 fuel2 b0.world v2 b2.world hw hne

/-- C8 witness: the block bound to B handles `ndi_index = 0`, and no receiver can be
created. -/
theorem C8_output_name_follows_resolution_witness :
    (∃ b', HandlePropertyChangeValueOnBlock (envABC false) 1 blockBoundToB kNDIIndex ⟨0, 0⟩ =
        .ok b' ∧
      b'.world.ndi_name = srcA.p_ndi_name ∧
      b'.world.info.mSelectedNDIName = srcA.p_ndi_name ∧
      b'.world.info.pNDI_recv = none) ∧
    (∀ (env2 : NDIEnv) (fuel2 : Nat) (b0 : PluginBlock) (v2 : Value) (b2 : PluginBlock),
      HandlePropertyChangeValueOnBlock env2 fuel2 b0 kNDIIndex v2 = .ok b2 →
      b2.world.ndi_name ≠ b0.world.ndi_name →
      ∃ r calls2 srcs2 s,
        discoveryLoop env2 b0.world.nextHandle fuel2 0 ⟨none, 0⟩
          (b0.world.calls ++ [NDICall.find_create_v2 (some b0.world.nextHandle)]) =
            some (r, calls2) ∧
        r.p_sources = some srcs2 ∧
        readSource srcs2 (toInt v2.ivalue) = some s ∧
        b2.world.ndi_name = s.p_ndi_name ∧
        b2.world.info.mSelectedNDIName = s.p_ndi_name ∧
        NDICall.recv_create_v3 s b2.world.info.pNDI_recv ∈ b2.world.calls) :=
  C8_output_name_follows_resolution (envABC false) 1 0 blockBoundToB ⟨0, 0⟩
    [srcA, srcB, srcC] srcA rfl (by decide) ⟨rfl, by intro j hj; omega, rfl, by decide⟩
    (by decide) (by decide) rfl rfl

/-- C8 counterexample: the block bound to B, whose string is live and whose output
reads "B", handles `ndi_index = 0` on a network reporting A, B, C where no
receiver can be created.  The event ends without a session (null handle), yet the
output now reads "A". -/
theorem C8_name_changes_on_failed_connect_counterexample :
    blockBoundToB.nameConstructed = true ∧
    blockBoundToB.world.ndi_name = "B" ∧
    blockBoundToB.world.info.pNDI_recv = some 1 ∧
    ∃ b', HandlePropertyChangeValueOnBlock (envABC false) 1 blockBoundToB kNDIIndex ⟨0, 0⟩ =
        .ok b' ∧
      b'.world.info.pNDI_recv = none ∧
      b'.world.ndi_name = "A" ∧
      b'.world.ndi_name ≠ blockBoundToB.world.ndi_name :=
  ⟨rfl, rfl, rfl, _, rfl, rfl, rfl, by decide⟩

/-! ## C9: the finder on the early exits -/

/-- C9 (evaluation at the failing inputs): a fresh actor handles an index event on
finder handle 0.  With sources A, B, C and index 1 the finder is destroyed before
the handler returns.  With index 5 (out of range), with a `NULL` source array, and
with index 1 when no receiver can be created, the handler returns with finder 0
still open and no `NDIlib_find_destroy` in the log. -/
theorem C9_finder_left_open_on_early_exit :
    (∃ w', HandlePropertyChangeValue (envABC true) 1 CreateActor kNDIIndex ⟨1, 0⟩ = .ok w' ∧
      openFinders w'.calls = [] ∧ NDICall.find_destroy 0 ∈ w'.calls) ∧
    (∃ w', HandlePropertyChangeValue (envABC true) 1 CreateActor kNDIIndex ⟨5, 0⟩ = .ok w' ∧
      openFinders w'.calls = [0] ∧ NDICall.find_destroy 0 ∉ w'.calls) ∧
    (∃ w', HandlePropertyChangeValue envNullSources 1 CreateActor kNDIIndex ⟨1, 0⟩ = .ok w' ∧
      openFinders w'.calls = [0] ∧ NDICall.find_destroy 0 ∉ w'.calls) ∧
    (∃ w', HandlePropertyChangeValue (envABC false) 1 CreateActor kNDIIndex ⟨1, 0⟩ = .ok w' ∧
      openFinders w'.calls = [0] ∧ NDICall.find_destroy 0 ∉ w'.calls) :=
  ⟨⟨_, rfl, rfl, by decide⟩, ⟨_, rfl, rfl, by decide⟩, ⟨_, rfl, rfl, by decide⟩,
    ⟨_, rfl, rfl, by decide⟩⟩

/-! ## C10: the end of the discovery loop -/

/-- C10 (amended): the discovery loop has no timeout; it ends exactly with the first
poll that reports a nonzero source count.  When the finder is created and that
poll is poll `k` (from 0), the loop is left after `k + 1` rounds, each a wait of at
most 1000 ms and a poll, holding what poll `k` reported, and the handler goes on
past the loop; no run cut short before that returns.  While the library reports no source the handler does not
return, whatever the number of rounds allowed: there is no no-sources outcome. -/
theorem C10_scan_ends_only_with_a_source (env : NDIEnv) (fuel : Nat) (w : World) (v : Value)
    (hfind : env.find_create_v2 = true) :
    (∀ k, (∀ j, j < k → (env.current_sources j).no_sources = 0) →
      (env.current_sources k).no_sources ≠ 0 →
      (k < fuel →
        discoveryLoop env w.nextHandle fuel 0 ⟨none, 0⟩
            (w.calls ++ [NDICall.find_create_v2 (some w.nextHandle)]) =
          some (env.current_sources k,
            (w.calls ++ [NDICall.find_create_v2 (some w.nextHandle)]) ++
              pollCalls w.nextHandle (k + 1)) ∧
        HandlePropertyChangeValue env fuel w kNDIIndex v ≠ .error Fault.outOfFuel) ∧
      (fuel ≤ k →
        HandlePropertyChangeValue env fuel w kNDIIndex v = .error Fault.outOfFuel)) ∧
    ((∀ j, (env.current_sources j).no_sources = 0) →
      HandlePropertyChangeValue env fuel w kNDIIndex v = .error Fault.outOfFuel) := by
  have hstuck : (∀ j, j < fuel → (env.current_sources j).no_sources = 0) →
      HandlePropertyChangeValue env fuel w kNDIIndex v = .error Fault.outOfFuel := by
    intro hz
    have hl := discoveryLoop_none env w.nextHandle fuel 0 ⟨none, 0⟩
      (w.calls ++ [NDICall.find_create_v2 (some w.nextHandle)]) rfl
      (by intro j hj; simpa using hz j hj)
    simp [HandlePropertyChangeValue, caseNDIIndex, hfind, hl]
  refine ⟨?_, fun hz => hstuck (fun j _ => hz j)⟩
  intro k hzero hk
  refine ⟨fun hfuel => ?_, fun hle => hstuck (fun j hj => hzero j (by omega))⟩
  have hl := discoveryLoop_completes env w.nextHandle k fuel 0 ⟨none, 0⟩
    (w.calls ++ [NDICall.find_create_v2 (some w.nextHandle)]) rfl
    (by intro j hj; simpa using hzero j hj) (by simpa using hk) hfuel
  refine ⟨by simpa using hl, ?_⟩
  simp only [HandlePropertyChangeValue, if_true]
  rw [caseNDIIndex_of_scan env fuel k w v _ ⟨hfind, hzero, rfl, hk⟩ hfuel]
  exact resolveAndConnect_ne_outOfFuel _ _ _ _

/-- C10 witness: a fresh actor on a network whose first poll reports A, B, C. -/
theorem C10_scan_ends_only_with_a_source_witness :
    (∀ k, (∀ j, j < k → ((envABC true).current_sources j).no_sources = 0) →
      ((envABC true).current_sources k).no_sources ≠ 0 →
      (k < 1 →
        discoveryLoop (envABC true) CreateActor.nextHandle 1 0 ⟨none, 0⟩
            (CreateActor.calls ++ [NDICall.find_create_v2 (some CreateActor.nextHandle)]) =
          some ((envABC true).current_sources k,
            (CreateActor.calls ++ [NDICall.find_create_v2 (some CreateActor.nextHandle)]) ++
              pollCalls CreateActor.nextHandle (k + 1)) ∧
        HandlePropertyChangeValue (envABC true) 1 CreateActor kNDIIndex ⟨1, 0⟩ ≠
          .error Fault.outOfFuel) ∧
      (1 ≤ k →
        HandlePropertyChangeValue (envABC true) 1 CreateActor kNDIIndex ⟨1, 0⟩ =
          .error Fault.outOfFuel)) ∧
    ((∀ j, ((envABC true).current_sources j).no_sources = 0) →
      HandlePropertyChangeValue (envABC true) 1 CreateActor kNDIIndex ⟨1, 0⟩ =
        .error Fault.outOfFuel) :=
  C10_scan_ends_only_with_a_source (envABC true) 1 CreateActor ⟨1, 0⟩ rfl

/-- C10 counterexample: on a network that never reports a source the finder is
created and every poll reports zero sources; whatever number of rounds is allowed,
the handler is still inside the loop when they are used up, so no run returns, with
a no-sources outcome or any other. -/
theorem C10_silent_network_counterexample :
    envSilent.find_create_v2 = true ∧
    ¬ ∃ fuel w', HandlePropertyChangeValue envSilent fuel CreateActor kNDIIndex ⟨0, 0⟩ =
        .ok w' := by
  refine ⟨rfl, ?_⟩
  rintro ⟨fuel, w', h⟩
  have hl := discoveryLoop_none envSilent CreateActor.nextHandle fuel 0 ⟨none, 0⟩
    (CreateActor.calls ++ [NDICall.find_create_v2 (some CreateActor.nextHandle)]) rfl
    (fun _ _ => rfl)
  have hfind : envSilent.find_create_v2 = true := rfl
  simp [HandlePropertyChangeValue, caseNDIIndex, hfind, hl] at h

/-! ## C11: DisposeActor -/

/-- C11 (amended): on an actor whose `PluginInfo` is allocated, `DisposeActor`
returns after exactly two library calls, `NDIlib_recv_destroy` on the handle held
and then `NDIlib_destroy`, and frees the `PluginInfo`.  When a handle `h` is held
the receiver `h` is open no more afterwards and the other open receivers stay as
they were; when the handle is null the open receivers are unchanged, so no receiver
is destroyed.  It resets neither the handle nor `mActorDataPtr`: a second
invocation reads the freed `PluginInfo` and is not a no-op. -/
theorem C11_dispose_destroys_held_receiver_once (a : ActorInfo)
    (hlive : a.mActorDataAllocated = true) :
    ∃ a', DisposeActor a = .ok a' ∧
      a'.world.calls = a.world.calls ++
        [NDICall.recv_destroy a.world.info.pNDI_recv, NDICall.lib_destroy_call] ∧
      a'.world.info = a.world.info ∧
      a'.mActorDataAllocated = false ∧
      (∀ h, a.world.info.pNDI_recv = some h →
        openReceivers a'.world.calls =
          (openReceivers a.world.calls).filter (fun x => x.1 ≠ h) ∧
        ∀ src, (h, src) ∉ openReceivers a'.world.calls) ∧
      (a.world.info.pNDI_recv = none →
        openReceivers a'.world.calls = openReceivers a.world.calls) ∧
      DisposeActor a' = .error DisposeFault.useAfterFree := by
  refine ⟨{ world := { a.world with
                       calls := a.world.calls ++
                         [NDICall.recv_destroy a.world.info.pNDI_recv,
                          NDICall.lib_destroy_call] },
            mActorDataAllocated := false },
    by simp [DisposeActor, hlive], rfl, rfl, rfl, ?_, ?_, by simp [DisposeActor]⟩
  · intro h hh
    have e : openReceivers (a.world.calls ++
        [NDICall.recv_destroy a.world.info.pNDI_recv, NDICall.lib_destroy_call]) =
        (openReceivers a.world.calls).filter (fun x => x.1 ≠ h) := by
      rw [openReceivers_append, hh]
      simp [recvStep]
    refine ⟨e, ?_⟩
    intro src hmem
    rw [e] at hmem
    simp at hmem
  · intro hn
    rw [openReceivers_append, hn]
    simp [recvStep]

/-- C11 witness: the actor bound to B is disposed. -/
theorem C11_dispose_destroys_held_receiver_once_witness :
    ∃ a', DisposeActor (actorOf actorBoundToB) = .ok a' ∧
      a'.world.calls = (actorOf actorBoundToB).world.calls ++
        [NDICall.recv_destroy (actorOf actorBoundToB).world.info.pNDI_recv,
         NDICall.lib_destroy_call] ∧
      a'.world.info = (actorOf actorBoundToB).world.info ∧
      a'.mActorDataAllocated = false ∧
      (∀ h, (actorOf actorBoundToB).world.info.pNDI_recv = some h →
        openReceivers a'.world.calls =
          (openReceivers (actorOf actorBoundToB).world.calls).filter (fun x => x.1 ≠ h) ∧
        ∀ src, (h, src) ∉ openReceivers a'.world.calls) ∧
      ((actorOf actorBoundToB).world.info.pNDI_recv = none →
        openReceivers a'.world.calls = openReceivers (actorOf actorBoundToB).world.calls) ∧
      DisposeActor a' = .error DisposeFault.useAfterFree :=
  C11_dispose_destroys_held_receiver_once (actorOf actorBoundToB) rfl

/-- C11 counterexample: the actor bound to B (handle 1) is disposed twice.  The
first call destroys receiver 1 and the library and leaves the handle 1 in the freed
`PluginInfo`; the second call is not a no-op, it reads that freed block, and no run
of it returns. -/
theorem C11_second_dispose_counterexample :
    ∃ a1, DisposeActor (actorOf actorBoundToB) = .ok a1 ∧
      a1.world.calls = actorBoundToB.calls ++
        [NDICall.recv_destroy (some 1), NDICall.lib_destroy_call] ∧
      a1.world.info.pNDI_recv = some 1 ∧
      a1.mActorDataAllocated = false ∧
      DisposeActor a1 = .error DisposeFault.useAfterFree ∧
      ¬ ∃ a2, DisposeActor a1 = .ok a2 := by
  refine ⟨_, rfl, rfl, rfl, rfl, rfl, ?_⟩
  rintro ⟨a2, h⟩
  cases h

/-! ## C12: the motion commands of a trigger -/

/-- C12: with a bound session (receiver handle `r`) whose stored amounts are `h`
(horizontal), `v` (vertical) and `z` (zoom), handling `go_move` returns, and among
the calls it made there is a motion command if and only if the status poll on `r`
returned a status change and the PTZ query on `r` answered yes; in that case the
calls are the status poll, the PTZ query, one pan/tilt command with pan `h` and
tilt `v`, and then one zoom command with zoom `z`, every one on `r`. -/
theorem C12_trigger_issues_stored_amounts (env : NDIEnv) (fuel : Nat) (w : World)
    (x : Value) (r : Nat) (h v z : Rat)
    (hbound : w.info.pNDI_recv = some r)
    (hh : w.info.mHorizAmount = h) (hv : w.info.mVertAmount = v)
    (hz : w.info.mZoomAmount = z) :
    ∃ w' added, HandlePropertyChangeValue env fuel w kTriggerGo x = .ok w' ∧
      w'.calls = w.calls ++ added ∧
      ((∃ c ∈ added, isMotionCommand c = true) ↔
        (env.recv_capture_v3 (some r) = NDIlib_frame_type_e.frame_type_status_change ∧
          env.recv_ptz_is_supported (some r) = true)) ∧
      (env.recv_capture_v3 (some r) = NDIlib_frame_type_e.frame_type_status_change →
        env.recv_ptz_is_supported (some r) = true →
        added = [NDICall.recv_capture_v3 (some r) 1000,
                 NDICall.recv_ptz_is_supported (some r),
                 NDICall.recv_ptz_pan_tilt (some r) h v,
                 NDICall.recv_ptz_zoom (some r) z]) := by
  subst hh hv hz
  refine ⟨caseTriggerGo env w,
    NDICall.recv_capture_v3 (some r) 1000 ::
      (if env.recv_capture_v3 (some r) = NDIlib_frame_type_e.frame_type_status_change then
        NDICall.recv_ptz_is_supported (some r) ::
          (if env.recv_ptz_is_supported (some r) = true then
            [NDICall.recv_ptz_pan_tilt (some r) w.info.mHorizAmount w.info.mVertAmount,
             NDICall.recv_ptz_zoom (some r) w.info.mZoomAmount]
           else [])
       else []),
    rfl, ?_, ?_, ?_⟩ <;>
    cases hc : env.recv_capture_v3 (some r) <;>
    cases hs : env.recv_ptz_is_supported (some r) <;>
    simp [caseTriggerGo, hbound, hc, hs, isMotionCommand]

/-- C12 witness: the actor bound to B receives 1/2 on `horiz_amnt`, -1/4 on
`vert_amnt` and 1 on `zoom_amnt`, and then `go_move`, with a status change reported
and PTZ supported. -/
theorem C12_trigger_issues_stored_amounts_witness :
    HandlePropertyChangeValue (envStatusChange true) 0 actorBoundToB kHorizAmnt ⟨0, 1 / 2⟩ =
      .ok { actorBoundToB with
            info := { actorBoundToB.info with mHorizAmount := 1 / 2 } } ∧
    HandlePropertyChangeValue (envStatusChange true) 0
        { actorBoundToB with info := { actorBoundToB.info with mHorizAmount := 1 / 2 } }
        kVertAmnt ⟨0, -1 / 4⟩ =
      .ok { actorBoundToB with
            info := { actorBoundToB.info with mHorizAmount := 1 / 2, mVertAmount := -1 / 4 } } ∧
    HandlePropertyChangeValue (envStatusChange true) 0
        { actorBoundToB with
          info := { actorBoundToB.info with mHorizAmount := 1 / 2, mVertAmount := -1 / 4 } }
        kZoomAmnt ⟨0, 1⟩ =
      .ok actorBoundToBWithAmounts ∧
    ∃ w' added,
      HandlePropertyChangeValue (envStatusChange true) 0 actorBoundToBWithAmounts kTriggerGo
        ⟨0, 0⟩ = .ok w' ∧
      w'.calls = actorBoundToBWithAmounts.calls ++ added ∧
      ((∃ c ∈ added, isMotionCommand c = true) ↔
        ((envStatusChange true).recv_capture_v3 (some 1) =
            NDIlib_frame_type_e.frame_type_status_change ∧
          (envStatusChange true).recv_ptz_is_supported (some 1) = true)) ∧
      ((envStatusChange true).recv_capture_v3 (some 1) =
          NDIlib_frame_type_e.frame_type_status_change →
        (envStatusChange true).recv_ptz_is_supported (some 1) = true →
        added = [NDICall.recv_capture_v3 (some 1) 1000,
                 NDICall.recv_ptz_is_supported (some 1),
                 NDICall.recv_ptz_pan_tilt (some 1) (1 / 2) (-1 / 4),
                 NDICall.recv_ptz_zoom (some 1) 1]) :=
  ⟨rfl, rfl, rfl,
    C12_trigger_issues_stored_amounts (envStatusChange true) 0 actorBoundToBWithAmounts
      ⟨0, 0⟩ 1 (1 / 2) (-1 / 4) 1 rfl rfl rfl rfl⟩

/-! ## C13: the help strings -/

/-- C13 (evaluation at the failing inputs): the property definition string has 5
inputs and 1 output, so 7 help strings are due, but `sHelpStrings` has 6 entries:
the texts of `ndi_index` and `vert_amnt` are one entry.  The help index of the
output `ndi_name` is 6 and lies past the end of the array; `vert_amnt`,
`horiz_amnt`, `zoom_amnt` and `go_move` each get the text written for the next
property, and "Name of Selected NDI Feed" is selected by index 5, not 6. -/
theorem C13_help_table_one_entry_short :
    numInputs = 5 ∧ numOutputs = 1 ∧
    sHelpStrings.length = 6 ∧
    sHelpStrings.length ≠ numInputs + numOutputs + 1 ∧
    PropertyTypeAndIndexToHelpIndex_ PropertyType.kOutputProperty kOutText = 6 ∧
    sHelpStrings.get? 6 = none ∧
    GetHelpString PropertyType.kOutputProperty kOutText 256 = none ∧
    GetHelpString PropertyType.kPropertyTypeInvalid 0 256 = some "NDI PTZ Controller" ∧
    GetHelpString PropertyType.kInputProperty kNDIIndex 256 =
      some "The NDI Index\rUp / Down Amount to Move" ∧
    GetHelpString PropertyType.kInputProperty kVertAmnt 256 =
      some "Left / Right Amount to Move" ∧
    GetHelpString PropertyType.kInputProperty kHorizAmnt 256 = some "Zoom In  / Zoom Out" ∧
    GetHelpString PropertyType.kInputProperty kZoomAmnt 256 = some "Trigger Move" ∧
    GetHelpString PropertyType.kInputProperty kTriggerGo 256 =
      some "Name of Selected NDI Feed" ∧
    sHelpStrings.get? 5 = some "Name of Selected NDI Feed" := by
  decide

end NDIPTZControl
